import Mathlib

/-!
# Client session, navigation and synchronisation controller

A shallow embedding of `web/public/js/main.js`: the script that runs on
`DOMContentLoaded`, keeps the session (`isLoggedIn`, `currentUser`,
`localStorage`), switches the visible section and renders what the API returns.

Modelling choices.

* The closure's variables and the parts of the document the script reads or
  writes are the fields of `State`; a handler is a function `State → State`.
* `fetch` is asynchronous: issuing a request appends it to `State.pending`, and
  its promise chain runs later, as an event of its own, on the state of that
  moment.  The same holds for `FileReader` (`State.readers`).
* A promise chain is evaluated with `Settled` (`.then` is `Settled.andThen`,
  `.catch` is `Settled.orCatch`).
* Response bodies have the shape the handlers read; a body that fails to parse
  is `Except.error` with the parser's message.
* Amounts are fixed point, in hundredths; `console.log` and `console.error`
  write nothing the controller reads and are left out.
* The listeners embedded are those of navigation, session (restore, login,
  logout), the three pipelines, the upload form and the transfer button.  The
  listeners of the register form, the close and copy buttons and the mine
  button are not embedded; none of them writes `isLoggedIn`, `currentUser` or
  `localStorage`, or calls `updateAuthUI` or `navigateToSection`.
-/

namespace Chain

/-! ## Values -/

/-- The sections of the page, by the prefix of their element id
(`home-section`, `about-section`, `dashboard-section`, `upload-section`,
`blockchain-section`); the nav link of a section is `nav-` followed by the same
prefix. -/
inductive SectionId
  | home
  | about
  | dashboard
  | upload
  | blockchain
  deriving DecidableEq, Repr

/-- JavaScript truthiness of a value that is a string, `null` or `undefined`:
only a non-empty string is truthy. -/
def truthy : Option String → Bool
  | some s => decide (s ≠ "")
  | none => false

/-- The JavaScript expression `a || b` for an optional string `a` and a string `b`. -/
def orDefault (a : Option String) (b : String) : String :=
  match a with
  | some s => if s ≠ "" then s else b
  | none => b

/-- The white space and the line terminators of the language, by code point:
the characters `trim` takes off and `parseFloat` skips. -/
def isWhiteSpace (c : Char) : Bool :=
  [9, 10, 11, 12, 13, 32, 160, 5760, 8232, 8233, 8239, 8287, 12288, 65279].contains c.toNat ||
    (decide (8192 ≤ c.toNat) && decide (c.toNat ≤ 8202))

/-- The method `trim` of a string. -/
def trim (value : String) : String :=
  String.mk ((value.toList.dropWhile isWhiteSpace).reverse.dropWhile isWhiteSpace).reverse

/-- The class list of one class over the five sections (or their nav links):
`flags x` says whether the element of `x` carries the class. -/
abbrev Flags := SectionId → Bool

/-- No element carries the class. -/
def Flags.none : Flags := fun _ => false

/-- The function `classList.add` on the element of `x`. -/
def Flags.add (f : Flags) (x : SectionId) : Flags :=
  fun y => if y = x then true else f y

/-- The function `classList.remove` on the element of `x`. -/
def Flags.remove (f : Flags) (x : SectionId) : Flags :=
  fun y => if y = x then false else f y

/-- Modelled from the spec: the page markup is not under `src/`; the sections
stand in the document in the order the spec enumerates them. -/
def documentOrder : List SectionId :=
  [.home, .about, .dashboard, .upload, .blockchain]

/-- The call `document.querySelector('.section.active')`: the first section in
document order that carries `active`, if any. -/
def querySelectorActive (f : Flags) : Option SectionId :=
  documentOrder.find? (fun x => f x)

/-- How a promise settles: fulfilled with a value, or rejected with an error
of the given `message`. -/
inductive Settled (α : Type)
  | fulfilled (value : α)
  | rejected (message : String)
  deriving Repr

/-- The method `.then(f)`: runs `f` on a fulfilled value, passes a rejection on. -/
def Settled.andThen {α β : Type} (p : Settled α) (f : α → Settled β) : Settled β :=
  match p with
  | .fulfilled v => f v
  | .rejected m => .rejected m

/-- The method `.catch(h)`: runs `h` on a rejection, passes a fulfilled value on. -/
def Settled.orCatch {α : Type} (p : Settled α) (h : String → Settled α) : Settled α :=
  match p with
  | .fulfilled v => .fulfilled v
  | .rejected m => h m

/-- A completed HTTP response: its status and what `response.json()` yields. -/
structure Response (β : Type) where
  status : Nat
  json : Except String β

/-- The property `response.ok`: the status is in the range 200 to 299. -/
def Response.ok {β : Type} (r : Response β) : Bool :=
  decide (200 ≤ r.status) && decide (r.status ≤ 299)

/-- The promise `response.json()`. -/
def Response.parsed {β : Type} (r : Response β) : Settled β :=
  match r.json with
  | .ok v => .fulfilled v
  | .error m => .rejected m

/-- How a `fetch` settles: it rejects when the request could not complete
(transport failure), and fulfils with the response otherwise, whatever the status. -/
inductive Outcome (β : Type)
  | failure (message : String)
  | response (r : Response β)

/-! ## Records of the API -/

/-- A memory as the API lists it. -/
structure MemoryRecord where
  type : String
  description : String
  timestamp : Nat
  deriving DecidableEq, Repr

/-- A transaction as the API lists it.  `fromAddress` may be missing;
`type` is the number on the wire; `amount` is in hundredths. -/
structure TransactionRecord where
  fromAddress : Option String
  toAddress : String
  amount : Int
  type : Nat
  timestamp : Nat
  deriving DecidableEq, Repr

/-- The wire value of the memory-reward transaction type, the `1` of
`tx.type === 1`. -/
def MEMORY_REWARD : Nat := 1

/-- A block of the ledger snapshot. -/
structure Block where
  index : Nat
  timestamp : Nat
  hash : String
  previousHash : String
  minerAddress : Option String
  nonce : Nat
  transactions : List TransactionRecord
  deriving DecidableEq, Repr

/-- Body of `/api/balance`. -/
structure BalanceBody where
  address : String
  balance : Int
  deriving DecidableEq, Repr

/-- Body of `/api/login`. -/
structure LoginBody where
  token : String
  address : String
  deriving DecidableEq, Repr

/-- Body of `/api/memories`; the field is missing in an error body. -/
structure MemoriesBody where
  memories : Option (List MemoryRecord)
  deriving DecidableEq, Repr

/-- Body of `/api/transactions`; the field is missing in an error body. -/
structure TransactionsBody where
  transactions : Option (List TransactionRecord)
  deriving DecidableEq, Repr

/-- Body of `/api/blockchain`; the field is missing in an error body. -/
structure BlockchainBody where
  chain : Option (List Block)
  deriving DecidableEq, Repr

/-- Body of `/api/upload`: the handlers read only `details` and `error`. -/
structure UploadBody where
  details : Option String
  error : Option String
  deriving DecidableEq, Repr

/-! ## What the script renders -/

/-- A child of a list container: a paragraph written through `innerHTML`
(with its `id`, when it has one) or an element appended with `appendChild`. -/
inductive Node (ρ : Type)
  | para (id : Option String) (text : String)
  | row (r : ρ)
  deriving DecidableEq, Repr

/-- The `memory-item` element built for one memory: the values interpolated
into its markup.  `date` is the argument of `new Date`, in milliseconds. -/
structure MemoryRow where
  icon : String
  description : String
  type : String
  date : Nat
  deriving DecidableEq, Repr

/-- The `transaction-item` element built for one transaction: the values
interpolated into its markup.  `amount` is the number handed to `toFixed(2)`. -/
structure TransactionRow where
  txType : String
  direction : String
  counterpart : String
  date : Nat
  amountClass : String
  amountPrefix : String
  amount : Int
  deriving DecidableEq, Repr

/-- The `block` element built for one block: the values interpolated into its
markup. -/
structure BlockRow where
  index : Nat
  date : Nat
  hash : String
  previousHash : String
  miner : String
  nonce : Nat
  transactions : Nat
  deriving DecidableEq, Repr

/-- A file chosen in the file input: what the script reads of it. -/
structure File where
  name : String
  type : String
  size : Nat
  deriving DecidableEq, Repr

/-- The JSON payload of an upload; `fileData` is missing when the data URL
has no comma. -/
structure UploadPayload where
  type : String
  description : String
  fileData : Option String
  fileName : String
  fileType : String
  deriving DecidableEq, Repr

/-- An element appended to the preview container, with its `src`. -/
inductive PreviewItem
  | img (src : String)
  | video (src : String)
  deriving DecidableEq, Repr

/-- A JavaScript number, a double: `NaN`, an infinity, or the finite number
`mantissa` times two to the `exponent`, with its sign.  A finite number is held
in lowest terms: the mantissa is odd, or it is zero and so is the exponent. -/
inductive JSNumber
  | nan
  | infinity (negative : Bool)
  | finite (negative : Bool) (mantissa : Nat) (exponent : Int)
  deriving DecidableEq, Repr

/-- The number as `JSON.stringify` writes it: a finite number as itself (minus
zero as zero), `NaN` and the infinities as `null`, which is `none`. -/
def jsonNumber : JSNumber → Option JSNumber
  | .finite negative mantissa exponent =>
    some (.finite (negative && decide (mantissa ≠ 0)) mantissa exponent)
  | _ => none

/-- Body of `/api/mine` and `/api/transfer`: the new balance, in hundredths. -/
structure TransferBody where
  balance : Int
  deriving DecidableEq, Repr

/-- A fetch in flight, with the values its promise chain has captured.  The
strings of a body are held as they are handed to `JSON.stringify`; the amount
of a transfer is held as it stands in the serialised body, `none` for `null`. -/
inductive Request
  | balance (savedToken savedAddress : String)
  | memories (authorization : String)
  | transactions (authorization : String)
  | blockchain
  | logout (authorization : String)
  | login (address privateKey : String)
  | upload (authorization : String) (payload : UploadPayload)
  | transfer (authorization : String) (toAddress : String) (amount : Option JSNumber)
  deriving DecidableEq, Repr

/-- A `FileReader` started by the upload form, with the values its `onload`
has captured. -/
structure Reading where
  type : String
  description : String
  file : File
  deriving DecidableEq, Repr

/-- The variable `currentUser`. -/
structure User where
  address : String
  token : String
  deriving DecidableEq, Repr

/-- The two keys of `localStorage` the script uses; `none` is a missing key. -/
structure Storage where
  token : Option String
  address : Option String
  deriving DecidableEq, Repr

/-- The state of the controller: its variables, the storage, the parts of the
document it touches, the messages it has shown, and the asynchronous work in
flight. -/
structure State where
  /-- The variable `isLoggedIn`. -/
  isLoggedIn : Bool
  /-- The variable `currentUser`. -/
  currentUser : User
  localStorage : Storage
  /-- The class `active` on the sections. -/
  sectionActive : Flags
  /-- The class `active` on the nav links. -/
  navActive : Flags
  /-- The class `disabled` on the nav links. -/
  navDisabled : Flags
  /-- The property `style.display` of `login-button`. -/
  loginButtonDisplay : String
  registerButtonDisplay : String
  logoutButtonDisplay : String
  /-- The class `active` on `login-modal`. -/
  loginModalActive : Bool
  registerModalActive : Bool
  /-- The text of `wallet-balance`. -/
  walletBalance : String
  /-- The text of `wallet-address`. -/
  walletAddress : String
  /-- The children of `memories-list`. -/
  memoriesList : List (Node MemoryRow)
  /-- The property `style.display` of the element the script holds as
  `noMemoriesMessage`, the one with that id when the script started. -/
  noMemoriesMessageDisplay : String
  /-- The children of `transaction-list`. -/
  transactionList : List (Node TransactionRow)
  /-- The property `style.display` of the element the script holds as
  `noTransactionsMessage`, the one with that id when the script started. -/
  noTransactionsMessageDisplay : String
  /-- The text of `block-count`. -/
  blockCount : String
  transactionCount : String
  memoryCount : String
  /-- The children of `blocks-container`. -/
  blocksContainer : List (Node BlockRow)
  /-- The children of `preview-container`. -/
  previewContainer : List (Node PreviewItem)
  /-- The value of the input `login-address`. -/
  loginAddress : String
  loginPrivateKey : String
  /-- The value of the input `memory-type`. -/
  memoryType : String
  memoryDescription : String
  /-- The first file of the input `memory-file`. -/
  memoryFile : Option File
  /-- The value of the input `transfer-address`. -/
  transferAddress : String
  /-- The value of the input `transfer-amount`. -/
  transferAmount : String
  /-- The messages shown with `alert`, oldest first. -/
  alerts : List String
  /-- The fetches in flight, oldest first. -/
  pending : List Request
  /-- The readers of the upload form in flight, oldest first. -/
  readers : List Reading
  /-- The readers of the preview in flight, oldest first. -/
  previewReaders : List File

/-- The call `alert(message)`: the message is shown to the user. -/
def alert (message : String) (s : State) : State :=
  { s with alerts := s.alerts ++ [message] }

/-- The call `fetch(...)`: the request is in flight. -/
def fetch (r : Request) (s : State) : State :=
  { s with pending := s.pending ++ [r] }

/-! ## Navigation and session -/

/-- The list `sections`, what `document.querySelectorAll('.section')` returns:
the five sections in document order. -/
def sections : List SectionId := documentOrder

/-- The function `navigateToSection`: the loop removes `active` from every
section, whichever carried it, and the class is then added to the target. -/
def navigateToSection (sectionId : SectionId) (s : State) : State :=
  { s with sectionActive := (sections.foldl Flags.remove s.sectionActive).add sectionId }

/-- The function `loadUserMemories`, up to the request. -/
def loadUserMemories (s : State) : State :=
  fetch (.memories s.currentUser.token) s

/-- The function `loadUserTransactions`, up to the request. -/
def loadUserTransactions (s : State) : State :=
  fetch (.transactions s.currentUser.token) s

/-- The function `loadBlockchainData`, up to the request. -/
def loadBlockchainData (s : State) : State :=
  fetch .blockchain s

/-- The function `updateAuthUI`. -/
def updateAuthUI (isAuthenticated : Bool) (s : State) : State :=
  let s := { s with isLoggedIn := isAuthenticated }
  if isAuthenticated then
    let s := { s with
      loginButtonDisplay := "none"
      registerButtonDisplay := "none"
      logoutButtonDisplay := "inline-block"
      navDisabled := (s.navDisabled.remove .dashboard).remove .upload }
    if s.sectionActive .home then
      let s := navigateToSection .dashboard s
      { s with navActive := (s.navActive.add .dashboard).remove .home }
    else s
  else
    let s := { s with
      loginButtonDisplay := "inline-block"
      registerButtonDisplay := "inline-block"
      logoutButtonDisplay := "none"
      navDisabled := (s.navDisabled.add .dashboard).add .upload }
    let currentSection := querySelectorActive s.sectionActive
    let s :=
      if currentSection = some .dashboard ∨ currentSection = some .upload then
        let s := navigateToSection .home s
        { s with navActive := fun x => if x = .home then true else false }
      else s
    { s with
      walletBalance := "0.00"
      walletAddress := "Not logged in"
      memoriesList := [.para (some "no-memories-message") "No memories uploaded yet."]
      transactionList := [.para (some "no-transactions-message") "No transactions yet."] }

/-- The function `checkAuth`, up to the request. -/
def checkAuth (s : State) : State :=
  let savedToken := s.localStorage.token
  let savedAddress := s.localStorage.address
  if truthy savedToken && truthy savedAddress then
    fetch (.balance (savedToken.getD "") (savedAddress.getD "")) s
  else
    updateAuthUI false s

/-! ## The synchronisation pipelines -/

/-- The method `toFixed(2)` on an amount in hundredths. -/
def toFixed2 (x : Int) : String :=
  (if x < 0 then "-" else "") ++ toString (x.natAbs / 100) ++ "." ++
    (if x.natAbs % 100 < 10 then "0" else "") ++ toString (x.natAbs % 100)

/-- What a fetch hands to the first `.then` of its chain. -/
def Outcome.settled {β : Type} (o : Outcome β) : Settled (Response β) :=
  match o with
  | .failure m => .rejected m
  | .response r => .fulfilled r

/-- The element built for one memory in `loadUserMemories`. -/
def memoryRow (memory : MemoryRecord) : MemoryRow :=
  let icon := "📄"
  let icon := if memory.type = "IMAGE" then "🖼️" else icon
  let icon := if memory.type = "VIDEO" then "🎬" else icon
  let icon := if memory.type = "MEME" then "😂" else icon
  { icon := icon
    description := memory.description
    type := memory.type
    date := memory.timestamp * 1000 }

/-- The chain of `loadUserMemories` once its fetch has settled. -/
def memoriesSettled (o : Outcome MemoriesBody) (s : State) : State :=
  match o.settled.andThen (fun response => response.parsed) with
  | .fulfilled data =>
    match data.memories with
    | some (m :: ms) =>
      (m :: ms).foldl
        (fun s memory => { s with memoriesList := s.memoriesList ++ [.row (memoryRow memory)] })
        { s with noMemoriesMessageDisplay := "none", memoriesList := [] }
    | _ => { s with noMemoriesMessageDisplay := "block" }
  | .rejected _ =>
    { s with memoriesList := [.para none "Error loading memories. Please try again."] }

/-- The label `txType` of a transaction in `loadUserTransactions`. -/
def txType (tx : TransactionRecord) : String :=
  let txType := "Transfer"
  let txType := if tx.type = 1 then "Memory Reward" else txType
  let txType := if !truthy tx.fromAddress then "Mining Reward" else txType
  txType

/-- The flag `isIncoming` of a transaction in `loadUserTransactions`. -/
def isIncoming (tx : TransactionRecord) (currentUser : User) : Bool :=
  decide (tx.toAddress = currentUser.address)

/-- The element built for one transaction in `loadUserTransactions`. -/
def transactionRow (tx : TransactionRecord) (currentUser : User) : TransactionRow :=
  let isIncoming := isIncoming tx currentUser
  let amountClass := if isIncoming then "positive" else "negative"
  let amountPrefix := if isIncoming then "+" else "-"
  { txType := txType tx
    direction := if isIncoming then "From" else "To"
    counterpart := if isIncoming then orDefault tx.fromAddress "Blockchain" else tx.toAddress
    date := tx.timestamp * 1000
    amountClass := amountClass
    amountPrefix := if isIncoming then amountPrefix else amountPrefix
    amount := tx.amount }

/-- The chain of `loadUserTransactions` once its fetch has settled. -/
def transactionsSettled (o : Outcome TransactionsBody) (s : State) : State :=
  match o.settled.andThen (fun response => response.parsed) with
  | .fulfilled data =>
    match data.transactions with
    | some (t :: ts) =>
      (t :: ts).foldl
        (fun s tx =>
          { s with transactionList := s.transactionList ++ [.row (transactionRow tx s.currentUser)] })
        { s with noTransactionsMessageDisplay := "none", transactionList := [] }
    | _ => { s with noTransactionsMessageDisplay := "block" }
  | .rejected _ =>
    { s with transactionList := [.para none "Error loading transactions. Please try again."] }

/-- The element built for one block in `loadBlockchainData`. -/
def blockRow (block : Block) : BlockRow :=
  { index := block.index
    date := block.timestamp * 1000
    hash := block.hash.take 20 ++ "..."
    previousHash := block.previousHash.take 20 ++ "..."
    miner := orDefault block.minerAddress "Genesis"
    nonce := block.nonce
    transactions := block.transactions.length }

/-- The variables of the loop over the chain in `loadBlockchainData`. -/
structure ChainLoop where
  totalTx : Nat
  totalMemories : Nat
  blocksContainer : List (Node BlockRow)

/-- One round of the loop over the chain: the body of `data.chain.forEach`. -/
def chainLoopBody (v : ChainLoop) (block : Block) : ChainLoop :=
  let totalTx := v.totalTx + block.transactions.length
  let totalMemories := block.transactions.foldl
    (fun totalMemories tx => if tx.type = 1 then totalMemories + 1 else totalMemories)
    v.totalMemories
  { totalTx := totalTx
    totalMemories := totalMemories
    blocksContainer := v.blocksContainer ++ [.row (blockRow block)] }

/-- The chain of `loadBlockchainData` once its fetch has settled. -/
def blockchainSettled (o : Outcome BlockchainBody) (s : State) : State :=
  match o.settled.andThen (fun response => response.parsed) with
  | .fulfilled data =>
    match data.chain with
    | some chain =>
      let s := { s with blockCount := toString chain.length }
      let v := chain.foldl chainLoopBody
        { totalTx := 0, totalMemories := 0, blocksContainer := [] }
      { s with
        blocksContainer := v.blocksContainer
        transactionCount := toString v.totalTx
        memoryCount := toString v.totalMemories }
    | none => s
  | .rejected _ =>
    { s with blocksContainer := [.para none "Error loading blockchain data. Please try again."] }

/-! ## Event listeners -/

/-- The class `active` on exactly the nav link of `x`: the effect of removing
it from every nav link and adding it to that one. -/
def navOnly (x : SectionId) : Flags := Flags.none.add x

/-- The click listener of the nav link of section `link`. -/
def navLinkClick (link : SectionId) (s : State) : State :=
  if s.navDisabled link then s
  else
    let s := { s with navActive := navOnly link }
    let targetSection := link
    let s := navigateToSection targetSection s
    if targetSection = .dashboard ∧ s.isLoggedIn = true then
      loadUserTransactions (loadUserMemories s)
    else if targetSection = .blockchain then
      loadBlockchainData s
    else s

/-- The click listener of `get-started-button`. -/
def getStartedButtonClick (s : State) : State :=
  if s.isLoggedIn then
    let s := navigateToSection .dashboard s
    { s with navActive := (s.navActive.add .dashboard).remove .home }
  else
    { s with registerModalActive := true }

/-- The click listener of `learn-more-button`. -/
def learnMoreButtonClick (s : State) : State :=
  let s := navigateToSection .about s
  { s with navActive := navOnly .about }

/-- The click listener of `login-button`. -/
def loginButtonClick (s : State) : State :=
  { s with loginModalActive := true }

/-- The click listener of `register-button`. -/
def registerButtonClick (s : State) : State :=
  { s with registerModalActive := true }

/-- The click listener of `logout-button`, up to the request. -/
def logoutButtonClick (s : State) : State :=
  fetch (.logout s.currentUser.token) s

/-- The chain of the logout fetch once it has settled: the `.then` runs for
every response, the `.catch` only logs. -/
def logoutSettled (o : Outcome Unit) (s : State) : State :=
  match o.settled with
  | .fulfilled _ =>
    let s := { s with
      localStorage := { token := none, address := none }
      currentUser := { address := "", token := "" } }
    updateAuthUI false s
  | .rejected _ => s

/-- The chain of the fetch of `checkAuth` once it has settled.  The first
`.then` writes to the state before it returns `response.json()` or throws; a
rejection, from the fetch, the throw or the parser, ends in the `.catch`, which
only logs. -/
def balanceSettled (savedToken savedAddress : String) (o : Outcome BalanceBody)
    (s : State) : State :=
  match o.settled with
  | .rejected _ => s
  | .fulfilled response =>
    if response.ok then
      let s := { s with currentUser := { token := savedToken, address := savedAddress } }
      let s := updateAuthUI true s
      match response.parsed with
      | .fulfilled data =>
        let s := { s with
          walletBalance := toFixed2 data.balance
          walletAddress := data.address }
        loadUserTransactions (loadUserMemories s)
      | .rejected _ => s
    else
      let s := { s with localStorage := { token := none, address := none } }
      updateAuthUI false s

/-- The method `reset` of the login form. -/
def loginFormReset (s : State) : State :=
  { s with loginAddress := "", loginPrivateKey := "" }

/-- The submit listener of the login form, up to the request. -/
def loginFormSubmit (s : State) : State :=
  let address := s.loginAddress
  let privateKey := s.loginPrivateKey
  fetch (.login address privateKey) s

/-- The chain of the login fetch once it has settled. -/
def loginSettled (o : Outcome LoginBody) (s : State) : State :=
  match o.settled.andThen (fun response =>
      if !response.ok then .rejected "Login failed" else response.parsed) with
  | .fulfilled data =>
    let token := data.token
    let s := { s with currentUser := { token := token, address := data.address } }
    let s := { s with localStorage := { token := some token, address := some data.address } }
    let s := updateAuthUI true s
    let s := { s with loginModalActive := false }
    let s := loginFormReset s
    let s := navigateToSection .dashboard s
    let s := { s with navActive := navOnly .dashboard }
    loadUserTransactions (loadUserMemories s)
  | .rejected _ =>
    alert "Login failed. Please check your credentials and try again." s

/-! ## Upload -/

/-- Modelled from the spec: the page markup is not under `src/`; a reset of
the upload form selects the first of the memory types the spec lists. -/
def defaultMemoryType : String := "DOCUMENT"

/-- The method `reset` of the upload form. -/
def uploadFormReset (s : State) : State :=
  { s with memoryType := defaultMemoryType, memoryDescription := "", memoryFile := none }

/-- The function `handleFilePreview`, up to the start of the reader. -/
def handleFilePreview (file : File) (s : State) : State :=
  { s with previewReaders := s.previewReaders ++ [file] }

/-- The size line of the preview: `(file.size / 1024).toFixed(2)`, the
quotient rounded to hundredths, ties upwards. -/
def kilobytes (size : Nat) : String :=
  toFixed2 (((size * 200 + 1024) / 2048 : Nat) : Int)

/-- The `onload` of the reader of `handleFilePreview`, with the data URL read. -/
def previewLoad (file : File) (result : String) (s : State) : State :=
  let fileType := (file.type.splitOn "/").headD ""
  let s := { s with previewContainer := [] }
  if fileType = "image" then
    { s with previewContainer := s.previewContainer ++ [.row (.img result)] }
  else if fileType = "video" then
    { s with previewContainer := s.previewContainer ++ [.row (.video result)] }
  else
    { s with previewContainer :=
        [.para none ("File selected: " ++ file.name),
         .para none ("Size: " ++ kilobytes file.size ++ " KB")] }

/-- The change listener of the file input, after the user has chosen `files[0]`. -/
def memoryFileChange (file : Option File) (s : State) : State :=
  let s := { s with memoryFile := file }
  match file with
  | some f => handleFilePreview f s
  | none => s

/-- The submit listener of the upload form, up to the start of the reader. -/
def uploadFormSubmit (s : State) : State :=
  let type := s.memoryType
  let description := s.memoryDescription
  match s.memoryFile with
  | none => alert "Please select a file to upload" s
  | some file =>
    { s with readers := s.readers ++ [{ type := type, description := description, file := file }] }

/-- The `onload` of the reader of the upload form, with the data URL read, up
to the request. -/
def readerLoad (reading : Reading) (result : String) (s : State) : State :=
  let base64Data := (result.splitOn ",").get? 1
  let jsonData : UploadPayload :=
    { type := reading.type
      description := reading.description
      fileData := base64Data
      fileName := reading.file.name
      fileType := reading.file.type }
  if s.currentUser.token = "" then
    alert "You need to be logged in to upload memories" s
  else if !s.isLoggedIn then
    alert "Please log in again to upload memories" s
  else
    let authToken := trim s.currentUser.token
    fetch (.upload authToken jsonData) s

/-- The first `.then` of the upload chain: what it returns for a response.
For a response that is not ok, the `.catch` is chained after the `.then` that
throws, so it also receives the error thrown there. -/
def uploadResponse (response : Response UploadBody) : Settled UploadBody :=
  if !response.ok then
    (response.parsed.andThen (fun errorData =>
        (.rejected (orDefault errorData.details (orDefault errorData.error "Upload failed"))
          : Settled UploadBody))).orCatch
      (fun _ => .rejected ("Upload failed with status " ++ toString response.status))
  else response.parsed

/-- The chain of the upload fetch once it has settled. -/
def uploadSettled (o : Outcome UploadBody) (s : State) : State :=
  match o.settled.andThen uploadResponse with
  | .fulfilled _ =>
    let s := alert "Memory uploaded successfully! You earned Ahmiyat coins." s
    let s := uploadFormReset s
    let s := { s with previewContainer := [.para none "Select a file to preview"] }
    let s := navigateToSection .dashboard s
    let s := { s with navActive := navOnly .dashboard }
    loadUserTransactions (loadUserMemories s)
  | .rejected message =>
    alert ("Upload failed: " ++ message) s

/-! ## Transfer -/

/-- Reads the longest run of decimal digits at the start of `cs`, continuing
the number `value`: the number read, how many digits were read, and the rest. -/
def readDigits : List Char → Nat → Nat → Nat × Nat × List Char
  | [], value, count => (value, count, [])
  | c :: cs, value, count =>
    if 48 ≤ c.toNat ∧ c.toNat ≤ 57 then readDigits cs (value * 10 + (c.toNat - 48)) (count + 1)
    else (value, count, c :: cs)

/-- The value of a signed run of digits after the exponent indicator; without
a digit there is no exponent part. -/
def exponentValue (negative : Bool) (cs : List Char) : Int :=
  match readDigits cs 0 0 with
  | (value, count, _) =>
    if count = 0 then 0 else if negative then -(value : Int) else (value : Int)

/-- The exponent part at the start of `cs`, if there is one: `e` or `E`, an
optional sign, and at least one digit. -/
def readExponent : List Char → Int
  | [] => 0
  | c :: cs =>
    if c = 'e' ∨ c = 'E' then
      match cs with
      | '+' :: ds => exponentValue false ds
      | '-' :: ds => exponentValue true ds
      | ds => exponentValue false ds
    else 0

/-- The power `base` to the `n`, by repeated multiplication. -/
def power (base : Nat) : Nat → Nat
  | 0 => 1
  | n + 1 => power base n * base

/-- The position of the highest set bit of `n` (zero for `n` below two), with
`fuel` rounds of halving; `n` rounds are enough. -/
def log2Floor : Nat → Nat → Nat
  | 0, _ => 0
  | fuel + 1, n => if 2 ≤ n then log2Floor fuel (n / 2) + 1 else 0

/-- The quotient of `num` by `den` rounded to the nearest integer, a tie to
the even one. -/
def divRoundEven (num den : Nat) : Nat :=
  let q := num / den
  let r := num % den
  if 2 * r < den then q
  else if den < 2 * r then q + 1
  else if q % 2 = 0 then q else q + 1

/-- Moves the factors of two of a mantissa into the exponent, `fuel` of them
at most. -/
def reduceMantissa : Nat → Nat → Int → Nat × Int
  | 0, mantissa, exponent => (mantissa, exponent)
  | fuel + 1, mantissa, exponent =>
    if mantissa ≠ 0 ∧ mantissa % 2 = 0 then reduceMantissa fuel (mantissa / 2) (exponent + 1)
    else (mantissa, exponent)

/-- The double for the decimal `digits` times ten to the `exponent`: the value
rounded to 53 significant bits, or to a multiple of two to the minus 1074 when
it is too small for that, a tie to the even mantissa; an infinity from two to
the 1024 on, and zero when the rounded mantissa is zero. -/
def roundToDouble (negative : Bool) (digits : Nat) (exponent : Int) : JSNumber :=
  if digits = 0 then .finite negative 0 0
  else
    let num := if 0 ≤ exponent then digits * power 10 exponent.toNat else digits
    let den := if 0 ≤ exponent then 1 else power 10 (-exponent).toNat
    let t : Int := (log2Floor num num : Int) - (log2Floor den den : Int)
    let k0 : Int := t - 52
    let k1 : Int :=
      if power 2 52 ≤ (num * power 2 (-k0).toNat) / (den * power 2 k0.toNat) then k0 else k0 - 1
    let k : Int := max k1 (-1074)
    let q := divRoundEven (num * power 2 (-k).toNat) (den * power 2 k.toNat)
    if q = 0 then .finite negative 0 0
    else if 0 ≤ k ∧ power 2 1024 ≤ q * power 2 k.toNat then .infinity negative
    else
      match reduceMantissa 53 q k with
      | (mantissa, exponent) => .finite negative mantissa exponent

/-- The longest prefix of `cs` that is an unsigned decimal literal, as a
number: `Infinity`, or digits with an optional fraction and exponent, or a
fraction that starts with the point. -/
def readUnsigned (negative : Bool) (cs : List Char) : JSNumber :=
  if cs.take 8 = ['I', 'n', 'f', 'i', 'n', 'i', 't', 'y'] then .infinity negative
  else
    match readDigits cs 0 0 with
    | (intValue, intCount, rest) =>
      match rest with
      | '.' :: afterPoint =>
        match readDigits afterPoint intValue 0 with
        | (value, fractionCount, rest) =>
          if intCount = 0 ∧ fractionCount = 0 then .nan
          else roundToDouble negative value (readExponent rest - fractionCount)
      | _ =>
        if intCount = 0 then .nan else roundToDouble negative intValue (readExponent rest)

/-- The function `parseFloat` of the language on a string: leading white
space is skipped, then the longest prefix that is a decimal literal is read and
rounded to a double; `NaN` when there is none. -/
def parseFloat (value : String) : JSNumber :=
  match value.toList.dropWhile isWhiteSpace with
  | '+' :: cs => readUnsigned false cs
  | '-' :: cs => readUnsigned true cs
  | cs => readUnsigned false cs

/-- The function `isNaN` on a number. -/
def JSNumber.isNaN : JSNumber → Bool
  | .nan => true
  | _ => false

/-- The comparison `amount <= 0`; it is false for `NaN`. -/
def JSNumber.leZero : JSNumber → Bool
  | .nan => false
  | .infinity negative => negative
  | .finite negative mantissa _ => negative || decide (mantissa = 0)

/-- Whether the number is finite. -/
def JSNumber.isFinite : JSNumber → Bool
  | .finite _ _ _ => true
  | _ => false

/-- The condition the spec puts on the amount, in its words: it parses as a
number, and the number is strictly greater than zero. -/
def JSNumber.isPositive : JSNumber → Bool
  | .nan => false
  | .infinity negative => !negative
  | .finite negative mantissa _ => !negative && decide (0 < mantissa)

/-- The click listener of `transfer-button`, up to the request. -/
def transferButtonClick (s : State) : State :=
  let toAddress := s.transferAddress
  let amount := parseFloat s.transferAmount
  if toAddress = "" ∨ amount.isNaN = true ∨ amount.leZero = true then
    alert "Please enter a valid address and amount" s
  else
    fetch (.transfer s.currentUser.token toAddress (jsonNumber amount)) s

/-- The chain of the transfer fetch once it has settled. -/
def transferSettled (o : Outcome TransferBody) (s : State) : State :=
  match o.settled.andThen (fun response =>
      if !response.ok then .rejected "Transfer failed" else response.parsed) with
  | .fulfilled data =>
    let s := alert ("Transfer successful! New balance: " ++ toFixed2 data.balance ++ " AHM") s
    let s := { s with walletBalance := toFixed2 data.balance }
    let s := { s with transferAddress := "", transferAmount := "" }
    loadUserTransactions s
  | .rejected _ =>
    alert "Transfer failed. Please check your balance and try again." s

/-! ## The controller as a transition system -/

/-- What can happen to the page: the user acts on it, or asynchronous work
in flight completes.  A completion names the position of the request or reader
in the list of those in flight. -/
inductive Event
  | navLinkClick (link : SectionId)
  | getStartedButtonClick
  | learnMoreButtonClick
  | loginButtonClick
  | registerButtonClick
  | logoutButtonClick
  | refreshBlockchainClick
  | loginAddressInput (value : String)
  | loginPrivateKeyInput (value : String)
  | loginFormSubmit
  | memoryTypeInput (value : String)
  | memoryDescriptionInput (value : String)
  | memoryFileChange (file : Option File)
  | uploadFormSubmit
  | previewLoad (i : Nat) (result : String)
  | readerLoad (i : Nat) (result : String)
  | balanceSettled (i : Nat) (o : Outcome BalanceBody)
  | memoriesSettled (i : Nat) (o : Outcome MemoriesBody)
  | transactionsSettled (i : Nat) (o : Outcome TransactionsBody)
  | blockchainSettled (i : Nat) (o : Outcome BlockchainBody)
  | logoutSettled (i : Nat) (o : Outcome Unit)
  | loginSettled (i : Nat) (o : Outcome LoginBody)
  | uploadSettled (i : Nat) (o : Outcome UploadBody)
  | transferAddressInput (value : String)
  | transferAmountInput (value : String)
  | transferButtonClick
  | transferSettled (i : Nat) (o : Outcome TransferBody)

/-- Takes the request at position `i` out of those in flight. -/
def takePending (i : Nat) (s : State) : Option (Request × State) :=
  match s.pending.get? i with
  | some r => some (r, { s with pending := s.pending.eraseIdx i })
  | none => none

/-- One event on the page; `none` when the event names asynchronous work that
is not in flight. -/
def step (s : State) : Event → Option State
  | .navLinkClick link => some (navLinkClick link s)
  | .getStartedButtonClick => some (getStartedButtonClick s)
  | .learnMoreButtonClick => some (learnMoreButtonClick s)
  | .loginButtonClick => some (loginButtonClick s)
  | .registerButtonClick => some (registerButtonClick s)
  | .logoutButtonClick => some (logoutButtonClick s)
  | .refreshBlockchainClick => some (loadBlockchainData s)
  | .loginAddressInput v => some { s with loginAddress := v }
  | .loginPrivateKeyInput v => some { s with loginPrivateKey := v }
  | .loginFormSubmit => some (loginFormSubmit s)
  | .memoryTypeInput v => some { s with memoryType := v }
  | .memoryDescriptionInput v => some { s with memoryDescription := v }
  | .memoryFileChange file => some (memoryFileChange file s)
  | .uploadFormSubmit => some (uploadFormSubmit s)
  | .previewLoad i result =>
    match s.previewReaders.get? i with
    | some file => some (previewLoad file result { s with previewReaders := s.previewReaders.eraseIdx i })
    | none => none
  | .readerLoad i result =>
    match s.readers.get? i with
    | some reading => some (readerLoad reading result { s with readers := s.readers.eraseIdx i })
    | none => none
  | .balanceSettled i o =>
    match takePending i s with
    | some (.balance savedToken savedAddress, s) => some (balanceSettled savedToken savedAddress o s)
    | _ => none
  | .memoriesSettled i o =>
    match takePending i s with
    | some (.memories _, s) => some (memoriesSettled o s)
    | _ => none
  | .transactionsSettled i o =>
    match takePending i s with
    | some (.transactions _, s) => some (transactionsSettled o s)
    | _ => none
  | .blockchainSettled i o =>
    match takePending i s with
    | some (.blockchain, s) => some (blockchainSettled o s)
    | _ => none
  | .logoutSettled i o =>
    match takePending i s with
    | some (.logout _, s) => some (logoutSettled o s)
    | _ => none
  | .loginSettled i o =>
    match takePending i s with
    | some (.login _ _, s) => some (loginSettled o s)
    | _ => none
  | .uploadSettled i o =>
    match takePending i s with
    | some (.upload _ _, s) => some (uploadSettled o s)
    | _ => none
  | .transferAddressInput v => some { s with transferAddress := v }
  | .transferAmountInput v => some { s with transferAmount := v }
  | .transferButtonClick => some (transferButtonClick s)
  | .transferSettled i o =>
    match takePending i s with
    | some (.transfer _ _ _, s) => some (transferSettled o s)
    | _ => none

/-- A sequence of events, from the left. -/
def run (s : State) : List Event → Option State
  | [] => some s
  | e :: es => (step s e).bind (fun s => run s es)

/-- Modelled from the spec: the page markup is not under `src/`; the document
as it is parsed, before the script runs, with Home the active Section, no class
`disabled` on a nav link, and the lists showing their empty-state paragraphs. -/
def document (localStorage : Storage) : State :=
  { isLoggedIn := false
    currentUser := { address := "", token := "" }
    localStorage := localStorage
    sectionActive := Flags.none.add .home
    navActive := Flags.none.add .home
    navDisabled := Flags.none
    loginButtonDisplay := ""
    registerButtonDisplay := ""
    logoutButtonDisplay := ""
    loginModalActive := false
    registerModalActive := false
    walletBalance := "0.00"
    walletAddress := "Not logged in"
    memoriesList := [.para (some "no-memories-message") "No memories uploaded yet."]
    noMemoriesMessageDisplay := ""
    transactionList := [.para (some "no-transactions-message") "No transactions yet."]
    noTransactionsMessageDisplay := ""
    blockCount := "0"
    transactionCount := "0"
    memoryCount := "0"
    blocksContainer := []
    previewContainer := [.para none "Select a file to preview"]
    loginAddress := ""
    loginPrivateKey := ""
    memoryType := defaultMemoryType
    memoryDescription := ""
    memoryFile := none
    transferAddress := ""
    transferAmount := ""
    alerts := []
    pending := []
    readers := []
    previewReaders := [] }

/-- The listener of `DOMContentLoaded`: the initial load at the end of the
script. -/
def domContentLoaded (localStorage : Storage) : State :=
  loadBlockchainData (checkAuth (document localStorage))

/-! ## The nav links follow the login flag -/

/-- The nav links of the protected sections carry `disabled` exactly when
`isLoggedIn` is false. -/
def AuthUISynced (s : State) : Prop :=
  s.navDisabled .dashboard = !s.isLoggedIn ∧ s.navDisabled .upload = !s.isLoggedIn

theorem sections_removed_add (f : Flags) (x : SectionId) :
    (sections.foldl Flags.remove f).add x = Flags.none.add x := by
  funext y
  cases y <;> simp [sections, documentOrder, Flags.remove, Flags.add, Flags.none]

theorem navigateToSection_sectionActive (sectionId : SectionId) (s : State) :
    (navigateToSection sectionId s).sectionActive = Flags.none.add sectionId :=
  sections_removed_add s.sectionActive sectionId

theorem updateAuthUI_isLoggedIn (b : Bool) (s : State) :
    (updateAuthUI b s).isLoggedIn = b := by
  cases b
  · simp only [updateAuthUI, navigateToSection, Bool.false_eq_true, if_false]
    split <;> rfl
  · simp only [updateAuthUI, navigateToSection, if_true]
    split <;> rfl

theorem updateAuthUI_navDisabled_false (s : State) :
    (updateAuthUI false s).navDisabled = (s.navDisabled.add .dashboard).add .upload := by
  simp only [updateAuthUI, navigateToSection, Bool.false_eq_true, if_false]
  split <;> rfl

theorem updateAuthUI_navDisabled_true (s : State) :
    (updateAuthUI true s).navDisabled = (s.navDisabled.remove .dashboard).remove .upload := by
  simp only [updateAuthUI, navigateToSection, if_true]
  split <;> rfl

theorem updateAuthUI_synced (b : Bool) (s : State) : AuthUISynced (updateAuthUI b s) := by
  cases b
  · simp [AuthUISynced, updateAuthUI_isLoggedIn, updateAuthUI_navDisabled_false, Flags.add]
  · simp [AuthUISynced, updateAuthUI_isLoggedIn, updateAuthUI_navDisabled_true, Flags.remove]

/-- The second state has the login flag and the `disabled` classes of the first. -/
def SameAuth (s t : State) : Prop :=
  t.isLoggedIn = s.isLoggedIn ∧ t.navDisabled = s.navDisabled

theorem SameAuth.synced {s t : State} (h : SameAuth s t) (hs : AuthUISynced s) :
    AuthUISynced t := by
  unfold AuthUISynced at *
  rw [h.1, h.2]
  exact hs

theorem SameAuth.trans {s t u : State} (h : SameAuth s t) (k : SameAuth t u) :
    SameAuth s u :=
  ⟨k.1.trans h.1, k.2.trans h.2⟩

theorem foldl_sameAuth {α : Type} (f : State → α → State)
    (hf : ∀ s a, SameAuth s (f s a)) (l : List α) (s : State) :
    SameAuth s (l.foldl f s) := by
  induction l generalizing s with
  | nil => exact ⟨rfl, rfl⟩
  | cons a l ih => exact (hf s a).trans (ih (f s a))

theorem memoriesSettled_sameAuth (o : Outcome MemoriesBody) (s : State) :
    SameAuth s (memoriesSettled o s) := by
  unfold memoriesSettled
  split
  · split
    · refine SameAuth.trans (t := { s with noMemoriesMessageDisplay := "none", memoriesList := [] })
        ⟨rfl, rfl⟩ ?_
      apply foldl_sameAuth
      intro _ _
      exact ⟨rfl, rfl⟩
    · exact ⟨rfl, rfl⟩
  · exact ⟨rfl, rfl⟩

theorem transactionsSettled_sameAuth (o : Outcome TransactionsBody) (s : State) :
    SameAuth s (transactionsSettled o s) := by
  unfold transactionsSettled
  split
  · split
    · refine SameAuth.trans
        (t := { s with noTransactionsMessageDisplay := "none", transactionList := [] })
        ⟨rfl, rfl⟩ ?_
      apply foldl_sameAuth
      intro _ _
      exact ⟨rfl, rfl⟩
    · exact ⟨rfl, rfl⟩
  · exact ⟨rfl, rfl⟩

theorem blockchainSettled_sameAuth (o : Outcome BlockchainBody) (s : State) :
    SameAuth s (blockchainSettled o s) := by
  unfold blockchainSettled
  split
  · split <;> exact ⟨rfl, rfl⟩
  · exact ⟨rfl, rfl⟩

theorem navLinkClick_sameAuth (link : SectionId) (s : State) :
    SameAuth s (navLinkClick link s) := by
  unfold navLinkClick
  split
  · exact ⟨rfl, rfl⟩
  · simp only []
    split
    · exact ⟨rfl, rfl⟩
    · split <;> exact ⟨rfl, rfl⟩

theorem getStartedButtonClick_sameAuth (s : State) :
    SameAuth s (getStartedButtonClick s) := by
  unfold getStartedButtonClick
  split <;> exact ⟨rfl, rfl⟩

theorem previewLoad_sameAuth (file : File) (result : String) (s : State) :
    SameAuth s (previewLoad file result s) := by
  unfold previewLoad
  simp only []
  split
  · exact ⟨rfl, rfl⟩
  · split <;> exact ⟨rfl, rfl⟩

theorem memoryFileChange_sameAuth (file : Option File) (s : State) :
    SameAuth s (memoryFileChange file s) := by
  cases file <;> exact ⟨rfl, rfl⟩

theorem uploadFormSubmit_sameAuth (s : State) : SameAuth s (uploadFormSubmit s) := by
  unfold uploadFormSubmit
  simp only []
  split <;> exact ⟨rfl, rfl⟩

theorem readerLoad_sameAuth (reading : Reading) (result : String) (s : State) :
    SameAuth s (readerLoad reading result s) := by
  unfold readerLoad
  simp only []
  split
  · exact ⟨rfl, rfl⟩
  · split <;> exact ⟨rfl, rfl⟩

theorem uploadSettled_sameAuth (o : Outcome UploadBody) (s : State) :
    SameAuth s (uploadSettled o s) := by
  unfold uploadSettled
  split <;> exact ⟨rfl, rfl⟩

theorem transferButtonClick_sameAuth (s : State) : SameAuth s (transferButtonClick s) := by
  unfold transferButtonClick
  simp only []
  split <;> exact ⟨rfl, rfl⟩

theorem transferSettled_sameAuth (o : Outcome TransferBody) (s : State) :
    SameAuth s (transferSettled o s) := by
  unfold transferSettled
  split <;> exact ⟨rfl, rfl⟩

theorem logoutSettled_synced (o : Outcome Unit) (s : State) (h : AuthUISynced s) :
    AuthUISynced (logoutSettled o s) := by
  unfold logoutSettled
  split
  · exact updateAuthUI_synced _ _
  · exact h

theorem balanceSettled_synced (savedToken savedAddress : String) (o : Outcome BalanceBody)
    (s : State) (h : AuthUISynced s) :
    AuthUISynced (balanceSettled savedToken savedAddress o s) := by
  unfold balanceSettled
  split
  · exact h
  · split
    · simp only []
      split
      · exact SameAuth.synced ⟨rfl, rfl⟩ (updateAuthUI_synced _ _)
      · exact updateAuthUI_synced _ _
    · exact updateAuthUI_synced _ _

theorem loginSettled_synced (o : Outcome LoginBody) (s : State) (h : AuthUISynced s) :
    AuthUISynced (loginSettled o s) := by
  unfold loginSettled
  split
  · exact SameAuth.synced ⟨rfl, rfl⟩ (updateAuthUI_synced _ _)
  · exact SameAuth.synced ⟨rfl, rfl⟩ h

theorem takePending_sameAuth {i : Nat} {s t : State} {r : Request}
    (h : takePending i s = some (r, t)) : SameAuth s t := by
  unfold takePending at h
  split at h
  · simp only [Option.some.injEq, Prod.mk.injEq] at h
    rw [← h.2]
    exact ⟨rfl, rfl⟩
  · exact absurd h (by simp)

theorem step_synced {s t : State} {e : Event} (h : AuthUISynced s)
    (hstep : step s e = some t) : AuthUISynced t := by
  cases e with
  | navLinkClick link =>
    simp only [step, Option.some.injEq] at hstep
    exact hstep ▸ (navLinkClick_sameAuth link s).synced h
  | getStartedButtonClick =>
    simp only [step, Option.some.injEq] at hstep
    exact hstep ▸ (getStartedButtonClick_sameAuth s).synced h
  | learnMoreButtonClick =>
    simp only [step, Option.some.injEq] at hstep
    exact hstep ▸ SameAuth.synced ⟨rfl, rfl⟩ h
  | loginButtonClick =>
    simp only [step, Option.some.injEq] at hstep
    exact hstep ▸ SameAuth.synced ⟨rfl, rfl⟩ h
  | registerButtonClick =>
    simp only [step, Option.some.injEq] at hstep
    exact hstep ▸ SameAuth.synced ⟨rfl, rfl⟩ h
  | logoutButtonClick =>
    simp only [step, Option.some.injEq] at hstep
    exact hstep ▸ SameAuth.synced ⟨rfl, rfl⟩ h
  | refreshBlockchainClick =>
    simp only [step, Option.some.injEq] at hstep
    exact hstep ▸ SameAuth.synced ⟨rfl, rfl⟩ h
  | loginAddressInput v =>
    simp only [step, Option.some.injEq] at hstep
    exact hstep ▸ SameAuth.synced ⟨rfl, rfl⟩ h
  | loginPrivateKeyInput v =>
    simp only [step, Option.some.injEq] at hstep
    exact hstep ▸ SameAuth.synced ⟨rfl, rfl⟩ h
  | loginFormSubmit =>
    simp only [step, Option.some.injEq] at hstep
    exact hstep ▸ SameAuth.synced ⟨rfl, rfl⟩ h
  | memoryTypeInput v =>
    simp only [step, Option.some.injEq] at hstep
    exact hstep ▸ SameAuth.synced ⟨rfl, rfl⟩ h
  | memoryDescriptionInput v =>
    simp only [step, Option.some.injEq] at hstep
    exact hstep ▸ SameAuth.synced ⟨rfl, rfl⟩ h
  | memoryFileChange file =>
    simp only [step, Option.some.injEq] at hstep
    exact hstep ▸ (memoryFileChange_sameAuth file s).synced h
  | uploadFormSubmit =>
    simp only [step, Option.some.injEq] at hstep
    exact hstep ▸ (uploadFormSubmit_sameAuth s).synced h
  | previewLoad i result =>
    simp only [step] at hstep
    split at hstep
    · simp only [Option.some.injEq] at hstep
      exact hstep ▸ (previewLoad_sameAuth _ _ _).synced (SameAuth.synced ⟨rfl, rfl⟩ h)
    · exact absurd hstep (by simp)
  | readerLoad i result =>
    simp only [step] at hstep
    split at hstep
    · simp only [Option.some.injEq] at hstep
      exact hstep ▸ (readerLoad_sameAuth _ _ _).synced (SameAuth.synced ⟨rfl, rfl⟩ h)
    · exact absurd hstep (by simp)
  | balanceSettled i o =>
    simp only [step] at hstep
    split at hstep
    · rename_i hp
      simp only [Option.some.injEq] at hstep
      exact hstep ▸ balanceSettled_synced _ _ _ _ ((takePending_sameAuth hp).synced h)
    · exact absurd hstep (by simp)
  | memoriesSettled i o =>
    simp only [step] at hstep
    split at hstep
    · rename_i hp
      simp only [Option.some.injEq] at hstep
      exact hstep ▸ (memoriesSettled_sameAuth _ _).synced ((takePending_sameAuth hp).synced h)
    · exact absurd hstep (by simp)
  | transactionsSettled i o =>
    simp only [step] at hstep
    split at hstep
    · rename_i hp
      simp only [Option.some.injEq] at hstep
      exact hstep ▸ (transactionsSettled_sameAuth _ _).synced ((takePending_sameAuth hp).synced h)
    · exact absurd hstep (by simp)
  | blockchainSettled i o =>
    simp only [step] at hstep
    split at hstep
    · rename_i hp
      simp only [Option.some.injEq] at hstep
      exact hstep ▸ (blockchainSettled_sameAuth _ _).synced ((takePending_sameAuth hp).synced h)
    · exact absurd hstep (by simp)
  | logoutSettled i o =>
    simp only [step] at hstep
    split at hstep
    · rename_i hp
      simp only [Option.some.injEq] at hstep
      exact hstep ▸ logoutSettled_synced _ _ ((takePending_sameAuth hp).synced h)
    · exact absurd hstep (by simp)
  | loginSettled i o =>
    simp only [step] at hstep
    split at hstep
    · rename_i hp
      simp only [Option.some.injEq] at hstep
      exact hstep ▸ loginSettled_synced _ _ ((takePending_sameAuth hp).synced h)
    · exact absurd hstep (by simp)
  | uploadSettled i o =>
    simp only [step] at hstep
    split at hstep
    · rename_i hp
      simp only [Option.some.injEq] at hstep
      exact hstep ▸ (uploadSettled_sameAuth _ _).synced ((takePending_sameAuth hp).synced h)
    · exact absurd hstep (by simp)
  | transferAddressInput v =>
    simp only [step, Option.some.injEq] at hstep
    exact hstep ▸ SameAuth.synced ⟨rfl, rfl⟩ h
  | transferAmountInput v =>
    simp only [step, Option.some.injEq] at hstep
    exact hstep ▸ SameAuth.synced ⟨rfl, rfl⟩ h
  | transferButtonClick =>
    simp only [step, Option.some.injEq] at hstep
    exact hstep ▸ (transferButtonClick_sameAuth s).synced h
  | transferSettled i o =>
    simp only [step] at hstep
    split at hstep
    · rename_i hp
      simp only [Option.some.injEq] at hstep
      exact hstep ▸ (transferSettled_sameAuth _ _).synced ((takePending_sameAuth hp).synced h)
    · exact absurd hstep (by simp)

theorem run_synced {es : List Event} {s t : State} (h : AuthUISynced s)
    (hrun : run s es = some t) : AuthUISynced t := by
  induction es generalizing s with
  | nil =>
    simp only [run, Option.some.injEq] at hrun
    exact hrun ▸ h
  | cons e es ih =>
    simp only [run] at hrun
    cases hstep : step s e with
    | none => rw [hstep] at hrun; exact absurd hrun (by simp)
    | some u =>
      rw [hstep] at hrun
      exact ih (step_synced h hstep) hrun

/-! ## Navigation without a session -/

theorem navLinkClick_disabled (s : State) (target : SectionId)
    (hdisabled : s.navDisabled target = true) : navLinkClick target s = s := by
  unfold navLinkClick
  rw [if_pos hdisabled]

/-- C1. Take a state without a session (`isLoggedIn` false) whose nav links
are as `updateAuthUI` leaves them (`AuthUISynced`: every call of `updateAuthUI`
establishes it, `updateAuthUI_synced`, and every event keeps it, `step_synced`),
with any sections active.  A click on the nav link of a protected section
(Dashboard or Upload) changes nothing: the state after the click is the state
before it, so the active section is the same and no request has been added to
those in flight. -/
theorem navLinkClick_protected_noop (s : State) (target : SectionId)
    (hout : s.isLoggedIn = false) (hsync : AuthUISynced s)
    (hprotected : target = .dashboard ∨ target = .upload) :
    step s (.navLinkClick target) = some s ∧
      (navLinkClick target s).sectionActive = s.sectionActive ∧
      (navLinkClick target s).pending = s.pending := by
  have hdisabled : s.navDisabled target = true := by
    rcases hprotected with h | h
    · rw [h, hsync.1, hout]; rfl
    · rw [h, hsync.2, hout]; rfl
  simp only [step, navLinkClick_disabled s target hdisabled, and_self]

/-- A witness of `navLinkClick_protected_noop`: the page is loaded with an
empty store, the user opens About, and then clicks the Dashboard link. -/
theorem navLinkClick_protected_noop_witness :
    (learnMoreButtonClick (updateAuthUI false (document ⟨none, none⟩))).isLoggedIn = false ∧
      AuthUISynced (learnMoreButtonClick (updateAuthUI false (document ⟨none, none⟩))) ∧
      step (learnMoreButtonClick (updateAuthUI false (document ⟨none, none⟩)))
          (.navLinkClick .dashboard)
        = some (learnMoreButtonClick (updateAuthUI false (document ⟨none, none⟩))) :=
  ⟨rfl, ⟨rfl, rfl⟩,
    (navLinkClick_protected_noop (learnMoreButtonClick (updateAuthUI false (document ⟨none, none⟩)))
      .dashboard rfl ⟨rfl, rfl⟩ (Or.inl rfl)).1⟩

/-- The same along a run: in every state reached by events after a call of
`updateAuthUI`, a click on a protected nav link without a session changes
nothing. -/
theorem navLinkClick_noop_after_updateAuthUI (b : Bool) (s0 s : State) (es : List Event)
    (target : SectionId)
    (hrun : run (updateAuthUI b s0) es = some s)
    (hout : s.isLoggedIn = false)
    (hprotected : target = .dashboard ∨ target = .upload) :
    step s (.navLinkClick target) = some s := by
  have hsync := run_synced (updateAuthUI_synced b s0) hrun
  have hdisabled : s.navDisabled target = true := by
    rcases hprotected with h | h
    · rw [h, hsync.1, hout]; rfl
    · rw [h, hsync.2, hout]; rfl
  simp only [step, navLinkClick_disabled s target hdisabled]

/-! ## In-flight requests -/

theorem takePending_fetch (r : Request) (s : State) :
    takePending s.pending.length (fetch r s) = some (r, s) := by
  simp [takePending, fetch, List.eraseIdx_append_of_length_le]

/-! ## A late upload response -/

/-- The file chosen in the traces below. -/
def noteFile : File := { name := "note.txt", type := "text/plain", size := 2 }

/-- A user logs in, opens Upload, submits a file, and logs out while the
upload is in flight; the upload response arrives after the logout response.
Before the first event the requests in flight are `[blockchain]`. -/
def lateUploadTrace : List Event :=
  [ .loginAddressInput "A1",
    .loginPrivateKeyInput "k",
    .loginFormSubmit,
    .loginSettled 1 (.response ⟨200, .ok { token := "T1", address := "A1" }⟩),
    .navLinkClick .upload,
    .memoryFileChange (some noteFile),
    .uploadFormSubmit,
    .readerLoad 0 "data:text/plain;base64,aGk=",
    .logoutButtonClick,
    .logoutSettled 4 (.response ⟨200, .ok ()⟩),
    .uploadSettled 3 (.response ⟨200, .ok { details := none, error := none }⟩) ]

/-- C2, evaluated on the code: after `lateUploadTrace` on a freshly loaded
page no session exists (`isLoggedIn` is false, the store is empty) and the
active section is Dashboard. -/
theorem lateUpload_dashboard_without_session :
    (run (domContentLoaded ⟨none, none⟩) lateUploadTrace).map
        (fun s => (s.isLoggedIn, s.localStorage, querySelectorActive s.sectionActive,
          s.sectionActive .dashboard, s.sectionActive .home))
      = some (false, ⟨none, none⟩, some .dashboard, true, false) := by
  decide

/-! ## Restoring a session -/

theorem checkAuth_fetch (s : State) (token address : String)
    (htoken : s.localStorage.token = some token) (haddress : s.localStorage.address = some address)
    (hne : token ≠ "") (hne2 : address ≠ "") :
    checkAuth s = fetch (.balance token address) s := by
  simp [checkAuth, htoken, haddress, truthy, hne, hne2]

theorem balanceSettled_rejected (savedToken savedAddress : String)
    (response : Response BalanceBody) (hok : response.ok = false) (s : State) :
    balanceSettled savedToken savedAddress (.response response) s
      = updateAuthUI false { s with localStorage := { token := none, address := none } } := by
  simp [balanceSettled, Outcome.settled, hok]

theorem updateAuthUI_localStorage (b : Bool) (s : State) :
    (updateAuthUI b s).localStorage = s.localStorage := by
  cases b
  · simp only [updateAuthUI, navigateToSection, Bool.false_eq_true, if_false]
    split <;> rfl
  · simp only [updateAuthUI, navigateToSection, if_true]
    split <;> rfl

theorem updateAuthUI_currentUser (b : Bool) (s : State) :
    (updateAuthUI b s).currentUser = s.currentUser := by
  cases b
  · simp only [updateAuthUI, navigateToSection, Bool.false_eq_true, if_false]
    split <;> rfl
  · simp only [updateAuthUI, navigateToSection, if_true]
    split <;> rfl

/-- C3. When the store holds a non-empty token and a non-empty address,
`checkAuth` issues the validating request with them; and when that request
completes with a response that is not ok, whatever its status and body, the
chain leaves `isLoggedIn` false and the store with neither token nor address.
This holds on the state `checkAuth` leaves (third part) and on any state the
page is in when the response arrives (second part). -/
theorem checkAuth_rejected_token (s : State) (token address : String)
    (response : Response BalanceBody)
    (htoken : s.localStorage.token = some token)
    (haddress : s.localStorage.address = some address)
    (hne : token ≠ "") (hne2 : address ≠ "")
    (hok : response.ok = false) :
    (checkAuth s).pending = s.pending ++ [.balance token address] ∧
    (∀ s1 : State,
      (balanceSettled token address (.response response) s1).isLoggedIn = false ∧
      (balanceSettled token address (.response response) s1).localStorage.token = none ∧
      (balanceSettled token address (.response response) s1).localStorage.address = none) ∧
    (∃ t, step (checkAuth s) (.balanceSettled s.pending.length (.response response)) = some t ∧
      t.isLoggedIn = false ∧ t.localStorage.token = none ∧ t.localStorage.address = none) := by
  have hsettled : ∀ s1 : State,
      (balanceSettled token address (.response response) s1).isLoggedIn = false ∧
      (balanceSettled token address (.response response) s1).localStorage.token = none ∧
      (balanceSettled token address (.response response) s1).localStorage.address = none := by
    intro s1
    rw [balanceSettled_rejected _ _ _ hok, updateAuthUI_isLoggedIn, updateAuthUI_localStorage]
    exact ⟨rfl, rfl, rfl⟩
  refine ⟨?_, hsettled, ?_⟩
  · rw [checkAuth_fetch s token address htoken haddress hne hne2]
    rfl
  · refine ⟨balanceSettled token address (.response response) s, ?_, hsettled s⟩
    rw [checkAuth_fetch s token address htoken haddress hne hne2]
    simp only [step, takePending_fetch]

/-- A witness of `checkAuth_rejected_token`: the store holds `T1` and `A1`,
and the server answers 401. -/
theorem checkAuth_rejected_token_witness :
    (document ⟨some "T1", some "A1"⟩).localStorage.token = some "T1" ∧
    (checkAuth (document ⟨some "T1", some "A1"⟩)).pending = [.balance "T1" "A1"] ∧
    (∃ t, step (checkAuth (document ⟨some "T1", some "A1"⟩))
        (.balanceSettled 0 (.response ⟨401, .error "Unexpected end of JSON input"⟩)) = some t ∧
      t.isLoggedIn = false ∧ t.localStorage.token = none ∧ t.localStorage.address = none) :=
  have h := checkAuth_rejected_token (document ⟨some "T1", some "A1"⟩) "T1" "A1"
    ⟨401, .error "Unexpected end of JSON input"⟩ rfl rfl (by decide) (by decide) (by decide)
  ⟨rfl, h.1, h.2.2⟩

/-- C4, as stated, fails: the page is loaded with `T1` and `A1` in the store
and the validating request fails in transport.  The chain of `checkAuth` goes
straight to its `.catch`, which only logs, so the token and the address are
still in the store afterwards. -/
theorem checkAuth_transport_failure_keeps_store :
    (run (domContentLoaded ⟨some "T1", some "A1"⟩)
        [.balanceSettled 0 (.failure "Failed to fetch")]).map
        (fun s => (s.localStorage.token, s.localStorage.address, s.isLoggedIn))
      = some (some "T1", some "A1", false) := by
  decide

/-- On a transport failure the chain of `checkAuth` changes nothing, on any state. -/
theorem balanceSettled_failure (savedToken savedAddress message : String) (s : State) :
    balanceSettled savedToken savedAddress (.failure message) s = s := rfl

/-- C4, amended. When the store holds a non-empty token and a non-empty
address, `checkAuth` issues the validating request; and when that request fails
in transport, the chain runs to a state in which the token and the address are
still in the store and `isLoggedIn` has the value it had before `checkAuth`
(false at page load). -/
theorem checkAuth_transport_failure_unchanged (s : State) (token address message : String)
    (htoken : s.localStorage.token = some token)
    (haddress : s.localStorage.address = some address)
    (hne : token ≠ "") (hne2 : address ≠ "") :
    (checkAuth s).pending = s.pending ++ [.balance token address] ∧
    (∃ t, step (checkAuth s) (.balanceSettled s.pending.length (.failure message)) = some t ∧
      t.localStorage.token = some token ∧ t.localStorage.address = some address ∧
      t.isLoggedIn = s.isLoggedIn) := by
  rw [checkAuth_fetch s token address htoken haddress hne hne2]
  refine ⟨rfl, s, ?_, htoken, haddress, rfl⟩
  simp only [step, takePending_fetch, balanceSettled_failure]

/-- A witness of `checkAuth_transport_failure_unchanged`: the store holds `T1`
and `A1` when the page is parsed. -/
theorem checkAuth_transport_failure_unchanged_witness :
    (document ⟨some "T1", some "A1"⟩).localStorage.token = some "T1" ∧
    (document ⟨some "T1", some "A1"⟩).localStorage.address = some "A1" ∧
    (∃ t, step (checkAuth (document ⟨some "T1", some "A1"⟩))
        (.balanceSettled 0 (.failure "Failed to fetch")) = some t ∧
      t.localStorage.token = some "T1" ∧ t.localStorage.address = some "A1" ∧
      t.isLoggedIn = false) :=
  ⟨rfl, rfl,
    (checkAuth_transport_failure_unchanged (document ⟨some "T1", some "A1"⟩) "T1" "A1"
      "Failed to fetch" rfl rfl (by decide) (by decide)).2⟩

/-! ## Logout -/

theorem updateAuthUI_false_wallet (s : State) :
    (updateAuthUI false s).walletBalance = "0.00" ∧
      (updateAuthUI false s).walletAddress = "Not logged in" := by
  simp only [updateAuthUI, navigateToSection, Bool.false_eq_true, if_false, and_self]

theorem updateAuthUI_false_sectionActive (s : State) :
    (updateAuthUI false s).sectionActive =
      if querySelectorActive s.sectionActive = some .dashboard ∨
          querySelectorActive s.sectionActive = some .upload
      then Flags.none.add .home else s.sectionActive := by
  simp only [updateAuthUI, navigateToSection, Bool.false_eq_true, if_false]
  split
  · exact sections_removed_add _ _
  · rfl

theorem updateAuthUI_pending (b : Bool) (s : State) :
    (updateAuthUI b s).pending = s.pending := by
  cases b
  · simp only [updateAuthUI, navigateToSection, Bool.false_eq_true, if_false]
    split <;> rfl
  · simp only [updateAuthUI, navigateToSection, if_true]
    split <;> rfl

/-- What the logout chain does when the request completes, whatever the
status of the response: the store and `currentUser` are emptied, `isLoggedIn`
is false, and Home becomes the active section when the first active section
was Dashboard or Upload (the sections are left as they were otherwise). -/
theorem logoutSettled_response (response : Response Unit) (s : State) :
    (logoutSettled (.response response) s).localStorage = ⟨none, none⟩ ∧
    (logoutSettled (.response response) s).currentUser = ⟨"", ""⟩ ∧
    (logoutSettled (.response response) s).isLoggedIn = false ∧
    (logoutSettled (.response response) s).sectionActive =
      (if querySelectorActive s.sectionActive = some .dashboard ∨
          querySelectorActive s.sectionActive = some .upload
       then Flags.none.add .home else s.sectionActive) ∧
    (logoutSettled (.response response) s).walletBalance = "0.00" ∧
    (logoutSettled (.response response) s).walletAddress = "Not logged in" := by
  simp only [logoutSettled, Outcome.settled]
  refine ⟨?_, ?_, ?_, ?_, ?_, ?_⟩
  · rw [updateAuthUI_localStorage]
  · rw [updateAuthUI_currentUser]
  · rw [updateAuthUI_isLoggedIn]
  · rw [updateAuthUI_false_sectionActive]
  · exact (updateAuthUI_false_wallet _).1
  · exact (updateAuthUI_false_wallet _).2

/-- A user logs in and clicks logout; the logout request fails in transport.
Before the first event the requests in flight are `[blockchain]`. -/
def offlineLogoutTrace : List Event :=
  [ .loginAddressInput "A1",
    .loginPrivateKeyInput "k",
    .loginFormSubmit,
    .loginSettled 1 (.response ⟨200, .ok { token := "T1", address := "A1" }⟩),
    .logoutButtonClick,
    .logoutSettled 3 (.failure "Failed to fetch") ]

/-- C5, evaluated on the code: after `offlineLogoutTrace` on a freshly loaded
page the logout has cleared nothing.  The token and the address are still in
the store and in `currentUser`, `isLoggedIn` is true and Dashboard is still the
active section. -/
theorem offlineLogout_clears_nothing :
    (run (domContentLoaded ⟨none, none⟩) offlineLogoutTrace).map
        (fun s => (s.localStorage, s.currentUser, s.isLoggedIn,
          querySelectorActive s.sectionActive))
      = some (⟨some "T1", some "A1"⟩, ⟨"A1", "T1"⟩, true, some .dashboard) := by
  decide

/-! ## Login, then logout -/

theorem loginSettled_ok (response : Response LoginBody) (data : LoginBody)
    (hok : response.ok = true) (hjson : response.json = .ok data) (s : State) :
    loginSettled (.response response) s =
      loadUserTransactions (loadUserMemories
        { (updateAuthUI true
            { s with
              currentUser := { token := data.token, address := data.address }
              localStorage := { token := some data.token, address := some data.address } }) with
          loginModalActive := false
          loginAddress := ""
          loginPrivateKey := ""
          sectionActive := Flags.none.add .dashboard
          navActive := navOnly .dashboard }) := by
  simp [loginSettled, Outcome.settled, Settled.andThen, Response.parsed, hok, hjson,
    loginFormReset, navigateToSection, sections_removed_add]

theorem loginSettled_ok_pending (response : Response LoginBody) (data : LoginBody)
    (hok : response.ok = true) (hjson : response.json = .ok data) (s : State) :
    (loginSettled (.response response) s).pending
      = s.pending ++ [.memories data.token, .transactions data.token] := by
  rw [loginSettled_ok response data hok hjson]
  simp [loadUserTransactions, loadUserMemories, fetch, updateAuthUI_pending,
    updateAuthUI_currentUser]

theorem loginSettled_ok_sectionActive (response : Response LoginBody) (data : LoginBody)
    (hok : response.ok = true) (hjson : response.json = .ok data) (s : State) :
    (loginSettled (.response response) s).sectionActive = Flags.none.add .dashboard := by
  rw [loginSettled_ok response data hok hjson]
  rfl

/-- The events of a login that succeeds with `response`, followed by a logout
whose request completes with `logoutResponse`, on a page with `n` requests in
flight: each response is that of the request issued last. -/
def loginLogoutTrace (n : Nat) (response : Response LoginBody)
    (logoutResponse : Response Unit) : List Event :=
  [ .loginFormSubmit,
    .loginSettled n (.response response),
    .logoutButtonClick,
    .logoutSettled (n + 2) (.response logoutResponse) ]

/-- The round trip when the logout request completes.  Take a fresh logged-out
state: `isLoggedIn` false, `currentUser` and the store empty, Home the one
active section, balance `0.00`, address `Not logged in`.  A login that succeeds
(an ok response whose body parses), followed by a logout whose request
completes (with any status), runs to a state that has the login flag,
`currentUser`, the store, the active sections, the displayed balance and the
displayed address of the fresh state. -/
theorem login_logout_roundtrip (f : State) (response : Response LoginBody) (data : LoginBody)
    (logoutResponse : Response Unit)
    (hflag : f.isLoggedIn = false)
    (huser : f.currentUser = ⟨"", ""⟩)
    (hstore : f.localStorage = ⟨none, none⟩)
    (hactive : f.sectionActive = Flags.none.add .home)
    (hbalance : f.walletBalance = "0.00")
    (haddress : f.walletAddress = "Not logged in")
    (hok : response.ok = true) (hjson : response.json = .ok data) :
    ∃ t, run f (loginLogoutTrace f.pending.length response logoutResponse) = some t ∧
      t.isLoggedIn = f.isLoggedIn ∧
      t.currentUser = f.currentUser ∧
      t.localStorage = f.localStorage ∧
      t.sectionActive = f.sectionActive ∧
      querySelectorActive t.sectionActive = some .home ∧
      t.walletBalance = f.walletBalance ∧
      t.walletAddress = f.walletAddress := by
  have hlen : f.pending.length + 2 = (loginSettled (.response response) f).pending.length := by
    rw [loginSettled_ok_pending response data hok hjson]
    simp
  have hrun : run f (loginLogoutTrace f.pending.length response logoutResponse)
      = some (logoutSettled (.response logoutResponse) (loginSettled (.response response) f)) := by
    simp only [loginLogoutTrace, run, step, loginFormSubmit, logoutButtonClick, Option.bind,
      takePending_fetch, hlen]
  have h := logoutSettled_response logoutResponse (loginSettled (.response response) f)
  rw [loginSettled_ok_sectionActive response data hok hjson] at h
  have hq : querySelectorActive (Flags.none.add .dashboard) = some .dashboard := by decide
  rw [hq] at h
  simp only [true_or, if_true] at h
  refine ⟨_, hrun, ?_, ?_, ?_, ?_, ?_, ?_, ?_⟩
  · rw [h.2.2.1, hflag]
  · rw [h.2.1, huser]
  · rw [h.1, hstore]
  · rw [h.2.2.2.1, hactive]
  · rw [h.2.2.2.1]; decide
  · rw [h.2.2.2.2.1, hbalance]
  · rw [h.2.2.2.2.2, haddress]

/-- An instance of `login_logout_roundtrip`: the fresh state is the one
`checkAuth` produces from the parsed page with an empty store; the login
returns token `T1` for address `A1`, and the logout request is answered 200. -/
theorem login_logout_roundtrip_witness :
    (checkAuth (document ⟨none, none⟩)).isLoggedIn = false ∧
    (checkAuth (document ⟨none, none⟩)).sectionActive = Flags.none.add .home ∧
    (∃ t, run (checkAuth (document ⟨none, none⟩))
        (loginLogoutTrace 0 ⟨200, .ok { token := "T1", address := "A1" }⟩ ⟨200, .ok ()⟩) = some t ∧
      t.isLoggedIn = false ∧
      t.currentUser = ⟨"", ""⟩ ∧
      t.localStorage = ⟨none, none⟩ ∧
      t.sectionActive = Flags.none.add .home ∧
      querySelectorActive t.sectionActive = some .home ∧
      t.walletBalance = "0.00" ∧
      t.walletAddress = "Not logged in") :=
  ⟨rfl, rfl,
    login_logout_roundtrip (checkAuth (document ⟨none, none⟩))
      ⟨200, .ok { token := "T1", address := "A1" }⟩ { token := "T1", address := "A1" }
      ⟨200, .ok ()⟩ rfl rfl rfl rfl rfl rfl (by decide) rfl⟩

/-- A login that succeeds, followed by a logout whose request fails in
transport, on the fresh state `checkAuth` produces from the parsed page with
an empty store, where no request is in flight. -/
def loginOfflineLogoutTrace : List Event :=
  [ .loginAddressInput "A1",
    .loginPrivateKeyInput "k",
    .loginFormSubmit,
    .loginSettled 0 (.response ⟨200, .ok { token := "T1", address := "A1" }⟩),
    .logoutButtonClick,
    .logoutSettled 2 (.failure "Failed to fetch") ]

/-- C6, evaluated on the code: the fresh state has `isLoggedIn` false, an
empty `currentUser` and store, Home active, balance `0.00` and address
`Not logged in`.  After `loginOfflineLogoutTrace` the balance and the address
are those of the fresh state, but `isLoggedIn` is true, `currentUser` and the
store hold `A1` and `T1`, and Dashboard is the active section: the logout whose
request fails in transport has undone nothing of the login. -/
theorem offlineLogout_breaks_roundtrip :
    ((checkAuth (document ⟨none, none⟩)).isLoggedIn,
      (checkAuth (document ⟨none, none⟩)).currentUser,
      (checkAuth (document ⟨none, none⟩)).localStorage,
      querySelectorActive (checkAuth (document ⟨none, none⟩)).sectionActive,
      (checkAuth (document ⟨none, none⟩)).walletBalance,
      (checkAuth (document ⟨none, none⟩)).walletAddress)
        = (false, ⟨"", ""⟩, ⟨none, none⟩, some .home, "0.00", "Not logged in") ∧
    (run (checkAuth (document ⟨none, none⟩)) loginOfflineLogoutTrace).map
        (fun t => (t.isLoggedIn, t.currentUser, t.localStorage))
        = some (true, ⟨"A1", "T1"⟩, ⟨some "T1", some "A1"⟩) ∧
    (run (checkAuth (document ⟨none, none⟩)) loginOfflineLogoutTrace).map
        (fun t => (querySelectorActive t.sectionActive, t.walletBalance, t.walletAddress))
        = some (some .dashboard, "0.00", "Not logged in") := by
  refine ⟨by decide, by decide, by decide⟩

/-! ## Transaction rows -/

theorem transactions_foldl (txs : List TransactionRecord) (s : State) :
    (txs.foldl
        (fun s tx =>
          { s with transactionList := s.transactionList ++ [.row (transactionRow tx s.currentUser)] })
        s)
      = { s with
          transactionList :=
            s.transactionList ++ txs.map (fun tx => .row (transactionRow tx s.currentUser)) } := by
  induction txs generalizing s with
  | nil => simp
  | cons tx txs ih => rw [List.foldl_cons, ih]; simp

/-- The rows the transaction pipeline renders for a non-empty collection: one
`transactionRow` per record, in order, against the session address of the
moment. -/
theorem transactionsSettled_rows (status : Nat) (tx : TransactionRecord)
    (txs : List TransactionRecord) (s : State) :
    (transactionsSettled (.response ⟨status, .ok ⟨some (tx :: txs)⟩⟩) s).transactionList
      = (tx :: txs).map (fun tx => .row (transactionRow tx s.currentUser)) := by
  simp only [transactionsSettled, Outcome.settled, Settled.andThen, Response.parsed]
  rw [transactions_foldl]
  simp

/-- C7. The label of a transaction row (the rows the pipeline renders are
those of `transactionRow`, see `transactionsSettled_rows`) is a function of two
things only: whether `fromAddress` is absent, by the test of the source,
`!tx.fromAddress`, which a missing and an empty address meet, and `type`.
Without a `fromAddress` the label is "Mining Reward", whatever the type, also
for a memory reward; with one, it is "Memory Reward" for type `MEMORY_REWARD`
and "Transfer" for every other type.  The session address plays no part. -/
theorem txType_precedence (tx : TransactionRecord) (currentUser : User) :
    (transactionRow tx currentUser).txType =
      (if truthy tx.fromAddress = false then "Mining Reward"
       else if tx.type = MEMORY_REWARD then "Memory Reward"
       else "Transfer") ∧
    (transactionRow { tx with fromAddress := none } currentUser).txType = "Mining Reward" ∧
    (transactionRow { tx with fromAddress := none, type := MEMORY_REWARD } currentUser).txType
      = "Mining Reward" := by
  refine ⟨?_, ?_, ?_⟩
  · simp only [transactionRow, txType, MEMORY_REWARD]
    cases truthy tx.fromAddress <;> simp
  · simp [transactionRow, txType, truthy]
  · simp [transactionRow, txType, truthy]

/-- C8. A transaction row (the rows the pipeline renders are those of
`transactionRow`, see `transactionsSettled_rows`) is incoming exactly when
`toAddress` is the session address, and nothing else of the record or of the
session enters the test.  An incoming row shows "From" with `fromAddress`, or
with "Blockchain" when `fromAddress` is absent (by the test of the source,
which a missing and an empty address meet), the sign `+` and the class
`positive`; every other row shows "To" with `toAddress`, the sign `-` and the
class `negative`. -/
theorem transactionRow_direction (tx : TransactionRecord) (currentUser : User) :
    (isIncoming tx currentUser = true ↔ tx.toAddress = currentUser.address) ∧
    (transactionRow tx currentUser).direction =
      (if tx.toAddress = currentUser.address then "From" else "To") ∧
    (transactionRow tx currentUser).counterpart =
      (if tx.toAddress = currentUser.address then
        (if truthy tx.fromAddress = true then tx.fromAddress.getD "" else "Blockchain")
       else tx.toAddress) ∧
    (transactionRow tx currentUser).amountPrefix =
      (if tx.toAddress = currentUser.address then "+" else "-") ∧
    (transactionRow tx currentUser).amountClass =
      (if tx.toAddress = currentUser.address then "positive" else "negative") := by
  refine ⟨?_, ?_, ?_, ?_, ?_⟩
  · simp [isIncoming]
  · simp [transactionRow, isIncoming]
  · simp only [transactionRow, isIncoming, decide_eq_true_eq]
    split
    · cases h : tx.fromAddress with
      | none => simp [orDefault, truthy]
      | some a => by_cases ha : a = "" <;> simp [orDefault, truthy, ha]
    · rfl
  · simp only [transactionRow, isIncoming, decide_eq_true_eq]
    split <;> rfl
  · simp [transactionRow, isIncoming]

/-! ## The explorer -/

theorem memories_foldl (txs : List TransactionRecord) (n : Nat) :
    txs.foldl (fun totalMemories tx => if tx.type = 1 then totalMemories + 1 else totalMemories) n
      = n + txs.countP (fun tx => decide (tx.type = MEMORY_REWARD)) := by
  induction txs generalizing n with
  | nil => simp
  | cons tx txs ih =>
    rw [List.foldl_cons, ih, List.countP_cons]
    by_cases h : tx.type = 1
    · simp [h, MEMORY_REWARD]; omega
    · simp [h, MEMORY_REWARD]

theorem chainLoop_foldl (chain : List Block) (v : ChainLoop) :
    (chain.foldl chainLoopBody v).totalTx
        = v.totalTx + (chain.map (fun block => block.transactions.length)).sum ∧
    (chain.foldl chainLoopBody v).totalMemories
        = v.totalMemories +
          (chain.flatMap (fun block => block.transactions)).countP
            (fun tx => decide (tx.type = MEMORY_REWARD)) ∧
    (chain.foldl chainLoopBody v).blocksContainer
        = v.blocksContainer ++ chain.map (fun block => .row (blockRow block)) := by
  induction chain generalizing v with
  | nil => simp
  | cons block chain ih =>
    rw [List.foldl_cons]
    obtain ⟨h1, h2, h3⟩ := ih (chainLoopBody v block)
    rw [h1, h2, h3]
    simp only [chainLoopBody, memories_foldl, List.map_cons, List.sum_cons, List.flatMap_cons,
      List.countP_append, List.append_assoc, List.singleton_append]
    refine ⟨by omega, by omega, trivial⟩

/-- The ledger snapshot of the scenario: two blocks, the first with three
transactions of which one is a memory reward, the second with none. -/
def scenarioChain : List Block :=
  [ { index := 0, timestamp := 1700000000, hash := "00aa", previousHash := "0",
      minerAddress := none, nonce := 7,
      transactions :=
        [ { fromAddress := none, toAddress := "A1", amount := 5000, type := 0, timestamp := 1 },
          { fromAddress := some "S", toAddress := "A1", amount := 1000, type := 1, timestamp := 2 },
          { fromAddress := some "A1", toAddress := "B2", amount := 250, type := 0, timestamp := 3 } ] },
    { index := 1, timestamp := 1700000600, hash := "00bb", previousHash := "00aa",
      minerAddress := some "A1", nonce := 9, transactions := [] } ]

/-- C9. For a response whose body carries a chain, the explorer pipeline sets
the block count to the number of blocks, the transaction count to the sum of
the numbers of transactions of the blocks, and the memory count to the number
of transactions, over all blocks, whose type is `MEMORY_REWARD` (each as the
decimal text of the number).  On the scenario chain the three are 2, 3 and 1. -/
theorem blockchainSettled_counts (status : Nat) (chain : List Block) (s : State) :
    (blockchainSettled (.response ⟨status, .ok ⟨some chain⟩⟩) s).blockCount
      = toString chain.length ∧
    (blockchainSettled (.response ⟨status, .ok ⟨some chain⟩⟩) s).transactionCount
      = toString (chain.map (fun block => block.transactions.length)).sum ∧
    (blockchainSettled (.response ⟨status, .ok ⟨some chain⟩⟩) s).memoryCount
      = toString ((chain.flatMap (fun block => block.transactions)).countP
          (fun tx => decide (tx.type = MEMORY_REWARD))) ∧
    (blockchainSettled (.response ⟨200, .ok ⟨some scenarioChain⟩⟩) s).blockCount = "2" ∧
    (blockchainSettled (.response ⟨200, .ok ⟨some scenarioChain⟩⟩) s).transactionCount = "3" ∧
    (blockchainSettled (.response ⟨200, .ok ⟨some scenarioChain⟩⟩) s).memoryCount = "1" := by
  have h : ∀ (st : Nat) (c : List Block),
      (blockchainSettled (.response ⟨st, .ok ⟨some c⟩⟩) s).blockCount = toString c.length ∧
      (blockchainSettled (.response ⟨st, .ok ⟨some c⟩⟩) s).transactionCount
        = toString (c.map (fun block => block.transactions.length)).sum ∧
      (blockchainSettled (.response ⟨st, .ok ⟨some c⟩⟩) s).memoryCount
        = toString ((c.flatMap (fun block => block.transactions)).countP
            (fun tx => decide (tx.type = MEMORY_REWARD))) := by
    intro st c
    obtain ⟨h1, h2, _⟩ := chainLoop_foldl c { totalTx := 0, totalMemories := 0, blocksContainer := [] }
    simp only [blockchainSettled, Outcome.settled, Settled.andThen, Response.parsed, h1, h2,
      Nat.zero_add, and_self]
  refine ⟨(h status chain).1, (h status chain).2.1, (h status chain).2.2, ?_, ?_, ?_⟩
  · rw [(h 200 scenarioChain).1]; decide
  · rw [(h 200 scenarioChain).2.1]; decide
  · rw [(h 200 scenarioChain).2.2]; decide

/-! ## The message of a failed upload -/

/-- For a response that is not ok the first `.then` of the upload chain always
rejects with the status message: when the body parses, the error built from
`details` or `error` is thrown inside the `.then` that the `.catch` follows,
and the `.catch` replaces it. -/
theorem uploadResponse_not_ok (response : Response UploadBody) (hok : response.ok = false) :
    uploadResponse response
      = .rejected ("Upload failed with status " ++ toString response.status) := by
  unfold uploadResponse
  rw [hok]
  cases h : response.json <;>
    simp [Response.parsed, h, Settled.andThen, Settled.orCatch]

/-- A user logs in, opens Upload and submits a file; the server answers 400
with a body that parses and carries both `details` and `error`.  Before the
first event the requests in flight are `[blockchain]`. -/
def rejectedUploadTrace : List Event :=
  [ .loginAddressInput "A1",
    .loginPrivateKeyInput "k",
    .loginFormSubmit,
    .loginSettled 1 (.response ⟨200, .ok { token := "T1", address := "A1" }⟩),
    .navLinkClick .upload,
    .memoryFileChange (some noteFile),
    .uploadFormSubmit,
    .readerLoad 0 "data:text/plain;base64,aGk=",
    .uploadSettled 3
      (.response ⟨400, .ok { details := some "File too large", error := some "Bad Request" }⟩) ]

/-- C10, evaluated on the code: after `rejectedUploadTrace` on a freshly loaded
page the one message shown to the user is the status message; neither the
`details` nor the `error` of the body appears in it, although the body parsed. -/
theorem rejectedUpload_shows_status_message :
    (run (domContentLoaded ⟨none, none⟩) rejectedUploadTrace).map (fun s => s.alerts)
        = some ["Upload failed: Upload failed with status 400"] ∧
    uploadResponse ⟨400, .ok { details := some "File too large", error := some "Bad Request" }⟩
        = .rejected "Upload failed with status 400" := by
  constructor
  · decide
  · rw [uploadResponse_not_ok _ (by decide)]
    exact congrArg Settled.rejected (by decide)

/-! ## A pipeline whose request fails -/

/-- A user logs in; the server answers each of the three read requests with a
status that is not a success and a body that parses, an error object without
the collection.  Before the first event the requests in flight are
`[blockchain]`. -/
def errorStatusTrace : List Event :=
  [ .loginAddressInput "A1",
    .loginPrivateKeyInput "k",
    .loginFormSubmit,
    .loginSettled 1 (.response ⟨200, .ok { token := "T1", address := "A1" }⟩),
    .memoriesSettled 1 (.response ⟨401, .ok { memories := none }⟩),
    .transactionsSettled 1 (.response ⟨401, .ok { transactions := none }⟩),
    .blockchainSettled 0 (.response ⟨500, .ok { chain := none }⟩) ]

/-- C11, evaluated on the code: after `errorStatusTrace` on a freshly loaded
page none of the three lists shows its error message.  The two account lists
still show their empty-state paragraph and the explorer is as it was; no
pipeline has looked at the status. -/
theorem errorStatus_shows_no_error_message :
    (run (domContentLoaded ⟨none, none⟩) errorStatusTrace).map
        (fun s => (s.memoriesList, s.transactionList, s.blocksContainer))
      = some
        ([.para (some "no-memories-message") "No memories uploaded yet."],
         [.para (some "no-transactions-message") "No transactions yet."],
         []) := by
  decide

/-- The failures the pipelines do render.  Each of the three replaces its list
with its static error message, and issues no request, when its read request
fails in transport and when the body of the response does not parse, whatever
the status.  The status of a response is never examined: a response whose body
parses is handled as the response with status 200 and the same body is. -/
theorem pipeline_failure_renders_error (s : State) (message : String) (status : Nat) :
    ((memoriesSettled (.failure message) s).memoriesList
        = [.para none "Error loading memories. Please try again."] ∧
      (memoriesSettled (.failure message) s).pending = s.pending ∧
      (memoriesSettled (.response ⟨status, .error message⟩) s).memoriesList
        = [.para none "Error loading memories. Please try again."] ∧
      (memoriesSettled (.response ⟨status, .error message⟩) s).pending = s.pending) ∧
    ((transactionsSettled (.failure message) s).transactionList
        = [.para none "Error loading transactions. Please try again."] ∧
      (transactionsSettled (.failure message) s).pending = s.pending ∧
      (transactionsSettled (.response ⟨status, .error message⟩) s).transactionList
        = [.para none "Error loading transactions. Please try again."] ∧
      (transactionsSettled (.response ⟨status, .error message⟩) s).pending = s.pending) ∧
    ((blockchainSettled (.failure message) s).blocksContainer
        = [.para none "Error loading blockchain data. Please try again."] ∧
      (blockchainSettled (.failure message) s).pending = s.pending ∧
      (blockchainSettled (.response ⟨status, .error message⟩) s).blocksContainer
        = [.para none "Error loading blockchain data. Please try again."] ∧
      (blockchainSettled (.response ⟨status, .error message⟩) s).pending = s.pending) ∧
    ((∀ json, memoriesSettled (.response ⟨status, json⟩) s
        = memoriesSettled (.response ⟨200, json⟩) s) ∧
      (∀ json, transactionsSettled (.response ⟨status, json⟩) s
        = transactionsSettled (.response ⟨200, json⟩) s) ∧
      (∀ json, blockchainSettled (.response ⟨status, json⟩) s
        = blockchainSettled (.response ⟨200, json⟩) s)) := by
  refine ⟨⟨rfl, rfl, rfl, rfl⟩, ⟨rfl, rfl, rfl, rfl⟩, ⟨rfl, rfl, rfl, rfl⟩, ?_, ?_, ?_⟩
  · intro json; rfl
  · intro json; rfl
  · intro json; rfl

/-! ## What a pipeline renders on success -/

theorem memoriesList_foldl (memories : List MemoryRecord) (s : State) :
    (memories.foldl
        (fun s memory => { s with memoriesList := s.memoriesList ++ [.row (memoryRow memory)] })
        s)
      = { s with
          memoriesList := s.memoriesList ++ memories.map (fun memory => .row (memoryRow memory)) } := by
  induction memories generalizing s with
  | nil => simp
  | cons memory memories ih => rw [List.foldl_cons, ih]; simp

/-- The rows the memory pipeline renders for a non-empty collection: one
`memoryRow` per record, in order, whatever the list held before. -/
theorem memoriesSettled_rows (status : Nat) (memory : MemoryRecord)
    (memories : List MemoryRecord) (s : State) :
    (memoriesSettled (.response ⟨status, .ok ⟨some (memory :: memories)⟩⟩) s).memoriesList
      = (memory :: memories).map (fun memory => .row (memoryRow memory)) := by
  simp only [memoriesSettled, Outcome.settled, Settled.andThen, Response.parsed]
  rw [memoriesList_foldl]
  simp

/-- For an empty collection both account pipelines leave their list as it was
and set the display of the message element the script holds. -/
theorem emptyCollection_leaves_list (status : Nat) (s : State) :
    (memoriesSettled (.response ⟨status, .ok ⟨some []⟩⟩) s)
        = { s with noMemoriesMessageDisplay := "block" } ∧
    (transactionsSettled (.response ⟨status, .ok ⟨some []⟩⟩) s)
        = { s with noTransactionsMessageDisplay := "block" } :=
  ⟨rfl, rfl⟩

/-- The two memories of the trace below. -/
def holidayMemories : List MemoryRecord :=
  [ { type := "IMAGE", description := "Beach", timestamp := 1700000000 },
    { type := "DOCUMENT", description := "Diary", timestamp := 1700000600 } ]

/-- The transaction of the trace below. -/
def rewardTransactions : List TransactionRecord :=
  [ { fromAddress := some "S", toAddress := "A1", amount := 1000, type := 1,
      timestamp := 1700000000 } ]

/-- A user logs in and the two account pipelines render a non-empty
collection each; the user opens Dashboard again and this time the server
returns both collections empty, with status 200.  Before the first event the
requests in flight are `[blockchain]`. -/
def emptiedCollectionTrace : List Event :=
  [ .loginAddressInput "A1",
    .loginPrivateKeyInput "k",
    .loginFormSubmit,
    .loginSettled 1 (.response ⟨200, .ok { token := "T1", address := "A1" }⟩),
    .memoriesSettled 1 (.response ⟨200, .ok { memories := some holidayMemories }⟩),
    .transactionsSettled 1 (.response ⟨200, .ok { transactions := some rewardTransactions }⟩),
    .navLinkClick .dashboard,
    .memoriesSettled 1 (.response ⟨200, .ok { memories := some [] }⟩),
    .transactionsSettled 1 (.response ⟨200, .ok { transactions := some [] }⟩) ]

/-- C12, evaluated on the code: after `emptiedCollectionTrace` on a freshly
loaded page the last run of each account pipeline was a success with an empty
collection, and each list still holds the rows of the run before: two memory
rows and one transaction row. -/
theorem emptiedCollection_keeps_rows :
    (run (domContentLoaded ⟨none, none⟩) emptiedCollectionTrace).map
        (fun s => (s.memoriesList, s.transactionList))
      = some
        (holidayMemories.map (fun memory => .row (memoryRow memory)),
         rewardTransactions.map (fun tx => .row (transactionRow tx ⟨"A1", "T1"⟩))) := by
  decide

/-! ## Validation before an upload -/

theorem readerLoad_empty_token (reading : Reading) (result : String) (s : State)
    (htoken : s.currentUser.token = "") :
    readerLoad reading result s = alert "You need to be logged in to upload memories" s := by
  simp [readerLoad, htoken]

/-- C13. An upload submission without a selected file shows "Please select a
file to upload" at once.  A submission with a file while the token of
`currentUser` is empty starts the reader, and when the reader has loaded the
file the listener shows "You need to be logged in to upload memories" (so it
does whenever the token is empty at that moment, third part).  In both cases
the state afterwards is the state before with that one message added: no
request has been issued, and `isLoggedIn`, `currentUser`, the store and the
active sections are as they were. -/
theorem uploadFormSubmit_validation (s : State) (result : String) :
    (s.memoryFile = none →
      step s .uploadFormSubmit = some (alert "Please select a file to upload" s)) ∧
    (∀ file, s.memoryFile = some file → s.currentUser.token = "" →
      run s [.uploadFormSubmit, .readerLoad s.readers.length result]
        = some (alert "You need to be logged in to upload memories" s)) ∧
    (∀ reading, s.currentUser.token = "" →
      readerLoad reading result s = alert "You need to be logged in to upload memories" s) ∧
    (∀ message,
      (alert message s).alerts = s.alerts ++ [message] ∧
      (alert message s).pending = s.pending ∧
      (alert message s).isLoggedIn = s.isLoggedIn ∧
      (alert message s).currentUser = s.currentUser ∧
      (alert message s).localStorage = s.localStorage ∧
      (alert message s).sectionActive = s.sectionActive) := by
  refine ⟨?_, ?_, ?_, ?_⟩
  · intro hfile
    simp [step, uploadFormSubmit, hfile]
  · intro file hfile htoken
    have hsubmit : uploadFormSubmit s
        = { s with readers := s.readers ++
              [{ type := s.memoryType, description := s.memoryDescription, file := file }] } := by
      simp [uploadFormSubmit, hfile]
    have hload : step (uploadFormSubmit s) (.readerLoad s.readers.length result)
        = some (alert "You need to be logged in to upload memories" s) := by
      rw [hsubmit]
      simp [step, List.eraseIdx_append_of_length_le, readerLoad_empty_token _ _ _ htoken]
    have hstep : step s .uploadFormSubmit = some (uploadFormSubmit s) := rfl
    simp only [run, hstep, Option.bind, hload]
  · intro reading htoken
    exact readerLoad_empty_token reading result s htoken
  · intro message
    exact ⟨rfl, rfl, rfl, rfl, rfl, rfl⟩

/-- A witness of `uploadFormSubmit_validation`: on the freshly loaded page,
where the token is empty, the form is submitted without a file, and with the
file `note.txt`. -/
theorem uploadFormSubmit_validation_witness :
    step (domContentLoaded ⟨none, none⟩) .uploadFormSubmit
        = some (alert "Please select a file to upload" (domContentLoaded ⟨none, none⟩)) ∧
    run (memoryFileChange (some noteFile) (domContentLoaded ⟨none, none⟩))
        [.uploadFormSubmit, .readerLoad 0 "data:text/plain;base64,aGk="]
      = some (alert "You need to be logged in to upload memories"
          (memoryFileChange (some noteFile) (domContentLoaded ⟨none, none⟩))) :=
  ⟨(uploadFormSubmit_validation (domContentLoaded ⟨none, none⟩) "").1 rfl,
    (uploadFormSubmit_validation (memoryFileChange (some noteFile) (domContentLoaded ⟨none, none⟩))
      "data:text/plain;base64,aGk=").2.1 noteFile rfl rfl⟩

/-! ## Validation before a transfer -/

theorem JSNumber.isPositive_iff (amount : JSNumber) :
    amount.isPositive = true ↔ ¬ (amount.isNaN = true ∨ amount.leZero = true) := by
  cases amount with
  | nan => simp [JSNumber.isPositive, JSNumber.isNaN]
  | infinity negative => cases negative <;> simp [JSNumber.isPositive, JSNumber.isNaN, JSNumber.leZero]
  | finite negative mantissa exponent =>
    cases negative <;> simp [JSNumber.isPositive, JSNumber.isNaN, JSNumber.leZero, Nat.pos_iff_ne_zero]

theorem jsonNumber_positive_finite (amount : JSNumber) (hfinite : amount.isFinite = true)
    (hpositive : amount.isPositive = true) : jsonNumber amount = some amount := by
  cases amount with
  | nan => simp [JSNumber.isFinite] at hfinite
  | infinity negative => simp [JSNumber.isFinite] at hfinite
  | finite negative mantissa exponent =>
    cases negative <;> simp_all [JSNumber.isPositive, jsonNumber]

/-- A logged-in user enters the address `B2` and the amount `1e400`, which is
too large for a double, and clicks the transfer button.  Before the first event
the requests in flight are `[blockchain]`. -/
def infiniteAmountTrace : List Event :=
  [ .loginAddressInput "A1",
    .loginPrivateKeyInput "k",
    .loginFormSubmit,
    .loginSettled 1 (.response ⟨200, .ok { token := "T1", address := "A1" }⟩),
    .transferAddressInput "B2",
    .transferAmountInput "1e400",
    .transferButtonClick ]

set_option maxRecDepth 100000 in
/-- C14, as stated, fails: the amount inputs `1e400` and `Infinity` parse as
the number `Infinity`, which is greater than zero, so the request is issued;
but its body does not carry the parsed amount: after `infiniteAmountTrace` on a
freshly loaded page the transfer in flight has `null` for its amount. -/
theorem infiniteAmount_sent_as_null :
    parseFloat "1e400" = .infinity false ∧
    parseFloat "Infinity" = .infinity false ∧
    (run (domContentLoaded ⟨none, none⟩) infiniteAmountTrace).map (fun s => s.pending)
      = some [.blockchain, .memories "T1", .transactions "T1", .transfer "T1" "B2" none] := by
  refine ⟨by decide, by decide, by decide⟩

set_option maxRecDepth 100000 in
/-- C14, amended. The transfer listener issues a request exactly when the
address input is not empty and the amount input parses, with `parseFloat`, as a
number strictly greater than zero; otherwise it shows its message and changes
nothing else: no request, and the two inputs and the displayed balance are as
they were.  A request carries that address (and the token of `currentUser`),
and it carries the number parsed whenever that number is finite.  The amount
`50.5` for `B2` is sent as 101 halves; the amounts `0`, `abc` and `1e-400`,
which is rounded to zero, are refused. -/
theorem transferButtonClick_validation (s : State) :
    transferButtonClick s =
      (if s.transferAddress ≠ "" ∧ (parseFloat s.transferAmount).isPositive = true then
        fetch (.transfer s.currentUser.token s.transferAddress
          (jsonNumber (parseFloat s.transferAmount))) s
       else alert "Please enter a valid address and amount" s) ∧
    ((∃ r, (transferButtonClick s).pending = s.pending ++ [r]) ↔
      (s.transferAddress ≠ "" ∧ (parseFloat s.transferAmount).isPositive = true)) ∧
    ((parseFloat s.transferAmount).isFinite = true →
      (parseFloat s.transferAmount).isPositive = true →
      jsonNumber (parseFloat s.transferAmount) = some (parseFloat s.transferAmount)) ∧
    (∀ message,
      (alert message s).alerts = s.alerts ++ [message] ∧
      (alert message s).pending = s.pending ∧
      (alert message s).transferAddress = s.transferAddress ∧
      (alert message s).transferAmount = s.transferAmount ∧
      (alert message s).walletBalance = s.walletBalance) ∧
    transferButtonClick { s with transferAddress := "B2", transferAmount := "50.5" }
      = fetch (.transfer s.currentUser.token "B2" (some (.finite false 101 (-1))))
          { s with transferAddress := "B2", transferAmount := "50.5" } ∧
    transferButtonClick { s with transferAddress := "B2", transferAmount := "0" }
      = alert "Please enter a valid address and amount"
          { s with transferAddress := "B2", transferAmount := "0" } ∧
    transferButtonClick { s with transferAddress := "B2", transferAmount := "abc" }
      = alert "Please enter a valid address and amount"
          { s with transferAddress := "B2", transferAmount := "abc" } ∧
    transferButtonClick { s with transferAddress := "B2", transferAmount := "1e-400" }
      = alert "Please enter a valid address and amount"
          { s with transferAddress := "B2", transferAmount := "1e-400" } := by
  have hcode : transferButtonClick s =
      (if s.transferAddress ≠ "" ∧ (parseFloat s.transferAmount).isPositive = true then
        fetch (.transfer s.currentUser.token s.transferAddress
          (jsonNumber (parseFloat s.transferAmount))) s
       else alert "Please enter a valid address and amount" s) := by
    unfold transferButtonClick
    simp only []
    by_cases haddress : s.transferAddress = ""
    · simp [haddress]
    · by_cases hamount : (parseFloat s.transferAmount).isPositive = true
      · have h := (JSNumber.isPositive_iff _).1 hamount
        rw [if_neg (by tauto), if_pos ⟨haddress, hamount⟩]
      · have h : (parseFloat s.transferAmount).isNaN = true ∨
            (parseFloat s.transferAmount).leZero = true := by
          by_contra hn
          exact hamount ((JSNumber.isPositive_iff _).2 hn)
        rw [if_pos (Or.inr h), if_neg (by tauto)]
  have hparse : parseFloat "50.5" = .finite false 101 (-1) := by decide
  have hzero : parseFloat "0" = .finite false 0 0 := by decide
  have habc : parseFloat "abc" = .nan := by decide
  have hsmall : parseFloat "1e-400" = .finite false 0 0 := by decide
  refine ⟨hcode, ?_, jsonNumber_positive_finite _, fun message => ⟨rfl, rfl, rfl, rfl, rfl⟩,
    ?_, ?_, ?_, ?_⟩
  · rw [hcode]
    constructor
    · rintro ⟨r, hr⟩
      by_contra hvalid
      rw [if_neg hvalid] at hr
      have hlen := congrArg List.length hr
      simp [alert] at hlen
    · intro hvalid
      rw [if_pos hvalid]
      exact ⟨_, rfl⟩
  · simp [transferButtonClick, hparse, JSNumber.isNaN, JSNumber.leZero, jsonNumber]
  · simp [transferButtonClick, hzero, JSNumber.isNaN, JSNumber.leZero]
  · simp [transferButtonClick, habc, JSNumber.isNaN, JSNumber.leZero]
  · simp [transferButtonClick, hsmall, JSNumber.isNaN, JSNumber.leZero]

/-! ## One active section -/

/-- C15. Whatever sections carry `active` beforehand, after
`navigateToSection` on any of the five sections the requested section carries
`active` and no other does: the sections that are active, in document order,
are the requested one alone, and it is the one `querySelector` finds. -/
theorem navigateToSection_exactly_one (sectionId : SectionId) (s : State) :
    (∀ x, (navigateToSection sectionId s).sectionActive x = true ↔ x = sectionId) ∧
    sections.filter (fun x => (navigateToSection sectionId s).sectionActive x) = [sectionId] ∧
    querySelectorActive (navigateToSection sectionId s).sectionActive = some sectionId := by
  rw [navigateToSection_sectionActive]
  refine ⟨?_, ?_, ?_⟩
  · intro x
    simp [Flags.add, Flags.none]
  · cases sectionId <;> decide
  · cases sectionId <;> decide

end Chain
